import Mathlib

/-!
Shallow embedding of the landslide-monitoring backend of this repository:
`backend/processors/water_processor.py`, `backend/processors/imu_processor.py`,
`backend/processors/gnss_processor.py`, `backend/app/landslide_analyzer.py`,
`backend/app/websocket.py` and `backend/mqtt_bridge.py`.

Modelling conventions:
* Python floats are modelled as exact rationals (`ℚ`).  The transcendental
  library functions (`math.sin`, `math.cos`, `math.atan2`, `math.sqrt`,
  `math.radians`, `math.degrees`, `np.sqrt`) are abstracted as a parameter
  record `FloatOps`; every definition that uses them takes the record as an
  argument, so all state machines stay executable.
* `round(x, n)` is modelled as `roundTo n x` (half-up at ties; tie behaviour
  is irrelevant to every claim because both sides of every comparison use the
  same function).
* A Python / JSON value is modelled by the two observations the pipeline
  makes of it: its truthiness (`or` chains, `if not x`) and the result of
  `float(x)` (with `none` modelling a raised `ValueError`/`TypeError`).
* Raised exceptions are modelled by `Option`/explicit error flags; every
  `try/except` in the source becomes a `match` on those.
-/

namespace Landslide

/-- Abstraction of a Python/JSON value as far as this pipeline observes it:
its truthiness (used by `or` chains and `if not x`) and the result of
`float(x)` (`none` models a raised `ValueError`/`TypeError`). -/
structure PyVal where
  truthy : Bool
  asFloat : Option ℚ
deriving DecidableEq, Repr

/-- A JSON number `q`: truthy iff nonzero, `float` converts to `q`. -/
def PyVal.num (q : ℚ) : PyVal := ⟨decide (q ≠ 0), some q⟩

/-- Python `a or b` where each operand is a dictionary lookup
(`none` = key absent or `None`, which is falsy): returns `a` when `a` is
present and truthy, otherwise `b`. -/
def pyOr (a b : Option PyVal) : Option PyVal :=
  match a with
  | some v => if v.truthy then some v else b
  | none => b

/-- Python `round(q, n)` over exact rationals. -/
def roundTo (n : ℕ) (q : ℚ) : ℚ := (⌊q * 10 ^ n + 1 / 2⌋ : ℚ) / 10 ^ n

/-- Python `int(q)` (truncation toward zero) for a nonnegative or negative
rational; used for `int(time.time())`-style conversions. -/
def ratTrunc (q : ℚ) : ℤ := q.num.tdiv q.den

/-- `collections.deque(maxlen := m).append`: drop from the left when full. -/
def pushBounded {α : Type} (m : ℕ) (xs : List α) (x : α) : List α :=
  let ys := xs ++ [x]
  if m < ys.length then ys.drop (ys.length - m) else ys

/-- Python `str.strip()` (both-ends whitespace removal). -/
def pyStrip (s : String) : String :=
  String.mk (((s.data.dropWhile Char.isWhitespace).reverse.dropWhile
    Char.isWhitespace).reverse)

/-- Helper for `pySplit`: split a character list on a separator. -/
def splitCharsOn (sep : Char) : List Char → List (List Char)
  | [] => [[]]
  | c :: cs =>
    let rest := splitCharsOn sep cs
    if c = sep then [] :: rest
    else
      match rest with
      | r :: rs => (c :: r) :: rs
      | [] => [[c]]

/-- Python `s.split(sep)` for a one-character separator. -/
def pySplit (sep : Char) (s : String) : List String :=
  (splitCharsOn sep s.data).map (fun cs => String.mk cs)

/-- Value of a decimal digit string; `none` if any character is not a digit
(empty list gives `some 0`; emptiness is guarded by the callers). -/
def decDigits? (cs : List Char) : Option ℕ :=
  cs.foldl
    (fun acc c =>
      match acc with
      | some n => if c.isDigit then some (n * 10 + (c.toNat - 48)) else none
      | none => none)
    (some 0)

/-- Unsigned part of `float(s)`: `digits`, `digits.digits`, `digits.` or
`.digits`. -/
def pyFloatCore (cs : List Char) : Option ℚ :=
  match splitCharsOn '.' cs with
  | [w] =>
    if w = [] then none else (decDigits? w).map (fun n => (n : ℚ))
  | [w, f] =>
    if w = [] ∧ f = [] then none
    else
      match decDigits? w, decDigits? f with
      | some wn, some fn => some ((wn : ℚ) + (fn : ℚ) / 10 ^ f.length)
      | _, _ => none
  | _ => none

/-- Python `float(s)` restricted to plain decimal syntax (optional sign,
digits, optional fractional part); exponent/`inf`/`nan` forms do not occur in
the NMEA frames this system parses.  `none` models a raised `ValueError`. -/
def pyFloat? (s : String) : Option ℚ :=
  match (pyStrip s).data with
  | '-' :: rest => (pyFloatCore rest).map (fun q => -q)
  | '+' :: rest => pyFloatCore rest
  | cs => pyFloatCore cs

/-- Python `int(s)` for plain decimal syntax; `none` models a raise. -/
def pyInt? (s : String) : Option ℤ :=
  match (pyStrip s).data with
  | '-' :: rest =>
    if rest = [] then none else (decDigits? rest).map (fun n => -(n : ℤ))
  | '+' :: rest =>
    if rest = [] then none else (decDigits? rest).map (fun n => (n : ℤ))
  | cs =>
    if cs = [] then none else (decDigits? cs).map (fun n => (n : ℤ))

/-- The floating-point library functions used by the processors, abstracted
as parameters so that the embedding stays executable; every theorem
quantifies over them. -/
structure FloatOps where
  fsin : ℚ → ℚ
  fcos : ℚ → ℚ
  fsqrt : ℚ → ℚ
  fatan2 : ℚ → ℚ → ℚ
  fradians : ℚ → ℚ
  fdegrees : ℚ → ℚ

/-- Alert level carried in the `level` field of analyzer results. -/
inductive Level
  | INFO
  | WARNING
  | CRITICAL
deriving DecidableEq, Repr

/-- An analyzer alert.  The Vietnamese human-readable `message` string and
the numeric `details` dictionary are not modelled; no claim concerns them. -/
structure Alert where
  level : Level
  category : String
deriving DecidableEq, Repr

/-- One entry of the `GNSS_Classification` config table as read by
`LandslideAnalyzer._classify_cruden_varnes`: keys `name`, `min` (m/s) and
`mm_giay` (mm/s). -/
structure VClass where
  name : String
  vmin : Option ℚ
  mm_giay : Option ℚ

/-- A station config document, restricted to the accesses the analyzer makes
of it: `config.get(sect, {}).get(key, default)` scalar lookups and the
`GNSS_Classification` table. -/
structure Cfg where
  entry : String → String → Option PyVal
  gnssClassification : Option (List VClass)

/-- The empty station config (`{}`): every lookup falls back to defaults. -/
def Cfg.empty : Cfg := ⟨fun _ _ => none, none⟩

/-- `LandslideAnalyzer._get_cfg`:
`float(config.get(sect, {}).get(key, default))` with any exception mapped to
the default. -/
def getCfg (c : Cfg) (sect key : String) (dflt : ℚ) : ℚ :=
  match c.entry sect key with
  | some v => v.asFloat.getD dflt
  | none => dflt

/-- A JSON payload dictionary restricted to the keys the rain, water and IMU
processors read.  Each field is `none` when the key is absent (or bound to
JSON `null`, which the source treats identically via `is None` /
falsiness). -/
structure Payload where
  value : Option PyVal := none
  water_level : Option PyVal := none
  rainfall_mm : Option PyVal := none
  intensity_mm_h : Option PyVal := none
  ax : Option PyVal := none
  ay : Option PyVal := none
  az : Option PyVal := none
  accel_x : Option PyVal := none
  accel_y : Option PyVal := none
  accel_z : Option PyVal := none
  gx : Option PyVal := none
  gy : Option PyVal := none
  gz : Option PyVal := none
  gyro_x : Option PyVal := none
  gyro_y : Option PyVal := none
  gyro_z : Option PyVal := none
  roll : Option PyVal := none
  pitch : Option PyVal := none
  yaw : Option PyVal := none

/-! ## Water and rain processors (`backend/processors/water_processor.py`) -/

/-- State of `WaterEngine` (constructor defaults: history 36, range 0..50,
last valid value 0.0). -/
structure WaterEngine where
  history : List (ℚ × ℚ)
  historySize : ℕ
  valid_min : ℚ
  valid_max : ℚ
  last_valid_value : ℚ

/-- `WaterEngine()` with its default arguments. -/
def WaterEngine.init : WaterEngine := ⟨[], 36, 0, 50, 0⟩

/-- Record emitted by `WaterEngine.process`. -/
structure WaterRecord where
  water_level : ℚ
  is_fallback : Bool
deriving DecidableEq, Repr

/-- The fallback record `{water_level: round(last, 3), is_fallback: True}`. -/
def WaterEngine.fallbackRec (e : WaterEngine) : WaterRecord :=
  ⟨roundTo 3 e.last_valid_value, true⟩

/-- `WaterEngine.process`: extract `payload.get("value") or
payload.get("water_level")`, fall back on `None`, on a `float` raise or on an
out-of-range value; otherwise update the last valid value and the bounded
history and emit the value. -/
def WaterEngine.process (e : WaterEngine) (payload : Payload) (timestamp : ℚ) :
    WaterEngine × WaterRecord :=
  match pyOr payload.value payload.water_level with
  | none => (e, e.fallbackRec)
  | some v =>
    match v.asFloat with
    | none => (e, e.fallbackRec)
    | some value_meters =>
      if e.valid_min ≤ value_meters ∧ value_meters ≤ e.valid_max then
        ({ e with
            last_valid_value := value_meters
            history := pushBounded e.historySize e.history (timestamp, value_meters) },
          ⟨roundTo 3 value_meters, false⟩)
      else (e, e.fallbackRec)

/-- State of `RainEngine` (constructor default: history 60). -/
structure RainEngine where
  history : List (ℚ × ℚ)
  historySize : ℕ
  last_valid_rainfall : ℚ
  last_valid_intensity : ℚ

/-- `RainEngine()` with its default arguments. -/
def RainEngine.init : RainEngine := ⟨[], 60, 0, 0⟩

/-- Record emitted by `RainEngine.process`. -/
structure RainRecord where
  rainfall_mm : ℚ
  intensity_mm_h : ℚ
  is_fallback : Bool
deriving DecidableEq, Repr

/-- The fallback record built from the last valid values. -/
def RainEngine.fallbackRec (e : RainEngine) : RainRecord :=
  ⟨roundTo 2 e.last_valid_rainfall, roundTo 2 e.last_valid_intensity, true⟩

/-- `RainEngine.process`: fallback when `rainfall_mm` is absent or does not
convert; prefer a device-supplied `intensity_mm_h`; otherwise derive the
intensity from the last history sample when `0 < Δt < 3600` and
`Δrainfall ≥ 0`, else 0; then commit state and emit. -/
def RainEngine.process (e : RainEngine) (payload : Payload) (timestamp : ℚ) :
    RainEngine × RainRecord :=
  match payload.rainfall_mm with
  | none => (e, e.fallbackRec)
  | some v =>
    match v.asFloat with
    | none => (e, e.fallbackRec)
    | some rainfall_mm =>
      let computed : Option ℚ :=
        match payload.intensity_mm_h with
        | some iv => iv.asFloat
        | none =>
          match e.history.getLast? with
          | some (prev_time, prev_rainfall) =>
            let time_diff_sec := timestamp - prev_time
            let rainfall_diff_mm := rainfall_mm - prev_rainfall
            if 0 < time_diff_sec ∧ time_diff_sec < 3600 ∧ 0 ≤ rainfall_diff_mm then
              some (rainfall_diff_mm / time_diff_sec * 3600)
            else some 0
          | none => some 0
      match computed with
      | none => (e, e.fallbackRec)
      | some intensity_mm_h =>
        ({ e with
            last_valid_rainfall := rainfall_mm
            last_valid_intensity := intensity_mm_h
            history := pushBounded e.historySize e.history (timestamp, rainfall_mm) },
          ⟨roundTo 2 rainfall_mm, roundTo 2 intensity_mm_h, false⟩)

/-! ## IMU processor (`backend/processors/imu_processor.py`) -/

/-- Record emitted by `IMUEngine.process`; also the shape of
`last_valid_data`. -/
structure ImuRecord where
  iax : ℚ
  iay : ℚ
  iaz : ℚ
  igx : ℚ
  igy : ℚ
  igz : ℚ
  roll : ℚ
  pitch : ℚ
  yaw : ℚ
  total_accel : ℚ
deriving DecidableEq, Repr

/-- State of `IMUEngine`. -/
structure IMUEngine where
  last_valid_data : ImuRecord

/-- `IMUEngine()`: initial `last_valid_data`. -/
def IMUEngine.init : IMUEngine :=
  ⟨⟨0, 0, 98 / 10, 0, 0, 0, 0, 0, 0, 98 / 10⟩⟩

/-- `float(payload.get(k) or payload.get(alias) or last_valid[k])`:
`none` models the raise when the chain yields a truthy non-numeric value. -/
def imuAxis (primary secondary : Option PyVal) (lastv : ℚ) : Option ℚ :=
  match pyOr (pyOr primary secondary) (some (PyVal.num lastv)) with
  | some v => v.asFloat
  | none => none

/-- Roll/pitch resolution (imu_processor.py lines 31-44): when the field is
absent, derive the angle if `total_accel > 0` and otherwise fall back to the
last valid angle; a supplied field is converted with `float` (a raise gives
`none`). -/
def resolveAngle (field : Option PyVal) (canDerive : Bool) (derived fallbackv : ℚ) :
    Option ℚ :=
  match field with
  | none => if canDerive then some derived else some fallbackv
  | some v => v.asFloat

/-- Yaw resolution (lines 34 and 45): carried forward from the last valid
record when absent; a supplied field is converted with `float`. -/
def resolveCarry (field : Option PyVal) (fallbackv : ℚ) : Option ℚ :=
  match field with
  | none => some fallbackv
  | some v => v.asFloat

/-- `IMUEngine.process`: resolve the six axes through `or` chains, compute
`total_accel`, derive roll/pitch when absent, carry yaw forward; on any
conversion raise return the last valid record unchanged. -/
def IMUEngine.process (ops : FloatOps) (e : IMUEngine) (payload : Payload) :
    IMUEngine × ImuRecord :=
  let lastd := e.last_valid_data
  let attempt : Option ImuRecord := do
    let ax ← imuAxis payload.ax payload.accel_x lastd.iax
    let ay ← imuAxis payload.ay payload.accel_y lastd.iay
    let az ← imuAxis payload.az payload.accel_z lastd.iaz
    let gx ← imuAxis payload.gx payload.gyro_x lastd.igx
    let gy ← imuAxis payload.gy payload.gyro_y lastd.igy
    let gz ← imuAxis payload.gz payload.gyro_z lastd.igz
    let total_accel := ops.fsqrt (ax ^ 2 + ay ^ 2 + az ^ 2)
    let roll ← resolveAngle payload.roll (decide (0 < total_accel))
      (ops.fdegrees (ops.fatan2 ay az)) lastd.roll
    let pitch ← resolveAngle payload.pitch (decide (0 < total_accel))
      (ops.fdegrees (ops.fatan2 (-ax) (ops.fsqrt (ay ^ 2 + az ^ 2)))) lastd.pitch
    let yaw ← resolveCarry payload.yaw lastd.yaw
    pure
      ⟨roundTo 3 ax, roundTo 3 ay, roundTo 3 az,
        roundTo 3 gx, roundTo 3 gy, roundTo 3 gz,
        roundTo 2 roll, roundTo 2 pitch, roundTo 2 yaw,
        roundTo 3 total_accel⟩
  match attempt with
  | some result => (⟨result⟩, result)
  | none => (e, lastd)

/-! ## GNSS processor (`backend/processors/gnss_processor.py`) -/

/-- WGS-84 semi-major axis `A_WGS84 = 6378137.0`. -/
def A_WGS84 : ℚ := 6378137

/-- WGS-84 flattening `F_WGS84 = 1 / 298.257223563`. -/
def F_WGS84 : ℚ := 1000000000 / 298257223563

/-- First eccentricity squared `E2_WGS84 = 2 f − f²`. -/
def E2_WGS84 : ℚ := 2 * F_WGS84 - F_WGS84 ^ 2

/-- A 3-vector (`np.array([x, y, z])`). -/
structure Vec3 where
  vx : ℚ
  vy : ℚ
  vz : ℚ
deriving DecidableEq, Repr

/-- Component-wise difference. -/
def Vec3.sub (a b : Vec3) : Vec3 := ⟨a.vx - b.vx, a.vy - b.vy, a.vz - b.vz⟩

/-- Scalar multiple. -/
def Vec3.scale (c : ℚ) (v : Vec3) : Vec3 := ⟨c * v.vx, c * v.vy, c * v.vz⟩

/-- Dot product. -/
def Vec3.dot (a b : Vec3) : ℚ := a.vx * b.vx + a.vy * b.vy + a.vz * b.vz

/-- A 3x3 matrix as three rows. -/
structure Mat3 where
  row1 : Vec3
  row2 : Vec3
  row3 : Vec3
deriving DecidableEq, Repr

/-- Matrix-vector product `M @ v`. -/
def Mat3.apply (m : Mat3) (v : Vec3) : Vec3 :=
  ⟨m.row1.dot v, m.row2.dot v, m.row3.dot v⟩

/-- A WGS-84 position (degrees, degrees, meters). -/
structure WgsPoint where
  lat : ℚ
  lon : ℚ
  h : ℚ
deriving DecidableEq, Repr

/-- `haversine_3d` (gnss_processor.py lines 15-23): great-circle distance with
mean Earth radius 6371000 m combined in quadrature with the height
difference. -/
def haversine_3d (ops : FloatOps) (lat1 lon1 h1 lat2 lon2 h2 : ℚ) : ℚ :=
  let earthR : ℚ := 6371000
  let lat1_rad := ops.fradians lat1
  let lon1_rad := ops.fradians lon1
  let lat2_rad := ops.fradians lat2
  let lon2_rad := ops.fradians lon2
  let dlon := lon2_rad - lon1_rad
  let dlat := lat2_rad - lat1_rad
  let a_val := ops.fsin (dlat / 2) ^ 2 +
    ops.fcos lat1_rad * ops.fcos lat2_rad * ops.fsin (dlon / 2) ^ 2
  let c := 2 * ops.fatan2 (ops.fsqrt a_val) (ops.fsqrt (1 - a_val))
  let distance_2d := earthR * c
  ops.fsqrt (distance_2d ^ 2 + (h2 - h1) ^ 2)

/-- `_gngga_to_ecef` (lines 341-350). -/
def gnggaToEcef (ops : FloatOps) (lat lon h : ℚ) : Vec3 :=
  let lat_rad := ops.fradians lat
  let lon_rad := ops.fradians lon
  let sin_lat := ops.fsin lat_rad
  let cos_lat := ops.fcos lat_rad
  let bigN := A_WGS84 / ops.fsqrt (1 - E2_WGS84 * sin_lat ^ 2)
  ⟨(bigN + h) * cos_lat * ops.fcos lon_rad,
    (bigN + h) * cos_lat * ops.fsin lon_rad,
    (bigN * (1 - E2_WGS84) + h) * sin_lat⟩

/-- `_get_rotation_matrix` (lines 352-360): the ECEF-to-ENU rotation at
(lat0, lon0). -/
def rotationMatrix (ops : FloatOps) (lat0 lon0 : ℚ) : Mat3 :=
  let lat0_rad := ops.fradians lat0
  let lon0_rad := ops.fradians lon0
  let sl0 := ops.fsin lon0_rad
  let cl0 := ops.fcos lon0_rad
  let sf0 := ops.fsin lat0_rad
  let cf0 := ops.fcos lat0_rad
  ⟨⟨-sl0, cl0, 0⟩,
    ⟨-sf0 * cl0, -sf0 * sl0, cf0⟩,
    ⟨cf0 * cl0, cf0 * sl0, sf0⟩⟩

/-- The two processor states. -/
inductive GnssState
  | AWAITING_CANDIDATES
  | ORIGIN_LOCKED
deriving DecidableEq, Repr

/-- The locked origin dictionary `{lat, lon, h, R, ecef}`. -/
structure Origin where
  olat : ℚ
  olon : ℚ
  oh : ℚ
  rotation : Mat3
  ecef : Vec3
deriving DecidableEq, Repr

/-- A ring-buffer entry `{ts, ecef, wgs}`. -/
structure HistEntry where
  hts : ℚ
  hecef : Vec3
  hwgs : WgsPoint
deriving DecidableEq, Repr

/-- State of `GNSSVelocityProcessor`.  The asynchronous DB origin load/save
are external effects not modelled here: a completed load simply sets
`origin` and `state` between frames, and the save does not change the
in-memory state. -/
structure GnssProc where
  device_id : ℤ
  required_points : ℕ
  max_spread_m : ℚ
  min_fix_quality : ℤ
  filter_window_size : ℕ
  state : GnssState
  origin : Option Origin
  origin_candidates : List WgsPoint
  history : List HistEntry
  total_processed : ℕ
  low_quality_rejected : ℕ
  origin_resets : ℕ
deriving DecidableEq, Repr

/-- `GNSSVelocityProcessor(device_id, factory)` with default keyword
arguments (required_points 5, max_spread_m 5.0, filter_window_size 5,
min_fix_quality 4), before any asynchronous origin load completes. -/
def GnssProc.init (device_id : ℤ) : GnssProc :=
  ⟨device_id, 5, 5, 4, 5, .AWAITING_CANDIDATES, none, [], [], 0, 0, 0⟩

/-- Result of `_parse_gngga`. -/
structure ParsedPoint where
  wgs : WgsPoint
  fix_quality : ℤ
  num_sats : ℤ
  hdop : ℚ
deriving DecidableEq, Repr

/-- Python character slice `s[:n]`. -/
def strTake (n : ℕ) (s : String) : String := String.mk (s.data.take n)

/-- Python character slice `s[n:]`. -/
def strDrop (n : ℕ) (s : String) : String := String.mk (s.data.drop n)

/-- `_parse_gngga` (lines 314-339): positional extraction of latitude,
longitude, height, fix quality, satellite count and HDOP; `none` models the
caught `ValueError`/`IndexError`. -/
def parse_gngga (gngga_string : String) : Option ParsedPoint :=
  let parts := pySplit ',' gngga_string
  if parts.length < 10 then none
  else
    let lat_str := parts.getD 2 ""
    let lon_str := parts.getD 4 ""
    let lat_dir := parts.getD 3 ""
    let lon_dir := parts.getD 5 ""
    if lat_str = "" ∨ lon_str = "" then none
    else do
      let h ← if parts.getD 9 "" = "" then some 0 else pyFloat? (parts.getD 9 "")
      let latDeg ← pyFloat? (strTake 2 lat_str)
      let latMin ← pyFloat? (strDrop 2 lat_str)
      let lat0 := latDeg + latMin / 60
      let lat := if lat_dir = "S" then -lat0 else lat0
      let lonDeg ← pyFloat? (strTake 3 lon_str)
      let lonMin ← pyFloat? (strDrop 3 lon_str)
      let lon0 := lonDeg + lonMin / 60
      let lon := if lon_dir = "W" then -lon0 else lon0
      let fq ← if parts.getD 6 "" = "" then some 0 else pyInt? (parts.getD 6 "")
      let ns ← if parts.getD 7 "" = "" then some 0 else pyInt? (parts.getD 7 "")
      let hdop ← if parts.getD 8 "" = "" then some (999 / 10) else pyFloat? (parts.getD 8 "")
      pure ⟨⟨lat, lon, h⟩, fq, ns, hdop⟩

/-- Data dictionary of a `gnss_processed` record. -/
structure GnssData where
  glat : ℚ
  glon : ℚ
  gh : ℚ
  pos_e : ℚ
  pos_n : ℚ
  pos_u : ℚ
  total_displacement_mm : ℚ
  vel_e : ℚ
  vel_n : ℚ
  vel_u : ℚ
  speed_2d : ℚ
  speed_2d_mm_s : ℚ
  fix_quality : ℤ
  num_sats : ℤ
  hdop : ℚ
deriving DecidableEq, Repr

/-- Result dictionaries of `process_gngga`.  Formatted message strings are
not modelled. -/
inductive GnssOut
  | origin_status (status : String)
  | origin_collecting (count target : ℕ)
  | origin_locked (lat lon h : ℚ)
  | origin_reset
  | gnss_processed (timestamp : ℤ) (data : GnssData)
deriving DecidableEq, Repr

/-- Arithmetic mean (`np.mean`) of a nonempty list. -/
def listMeanQ (xs : List ℚ) : ℚ := xs.sum / xs.length

/-- Component-wise mean (`np.mean(vs, axis=0)`) of a nonempty vector list. -/
def vecMean (vs : List Vec3) : Vec3 :=
  ⟨listMeanQ (vs.map Vec3.vx), listMeanQ (vs.map Vec3.vy), listMeanQ (vs.map Vec3.vz)⟩

/-- Python `max` of a nonempty list (with an unreachable default). -/
def listMaxD (d : ℚ) : List ℚ → ℚ
  | [] => d
  | x :: xs => xs.foldl max x

/-- Consecutive pairs `(history[i-1], history[i])` for `i` in
`range(1, len(history))`. -/
def adjPairs {α : Type} : List α → List (α × α)
  | a :: b :: rest => (a, b) :: adjPairs (b :: rest)
  | _ => []

/-- `_handle_origin_collection` (lines 172-239): reject low quality, append a
candidate, and when the required count is held either lock the origin at the
centroid (dispersion within `max_spread_m`) or clear the candidates and count
a reset.  The asynchronous DB save scheduled on lock is an external effect
and changes no in-memory state. -/
def handleOriginCollection (ops : FloatOps) (p : GnssProc) (gngga_string : String)
    (fix_quality : ℤ) : GnssProc × Option GnssOut :=
  if fix_quality < p.min_fix_quality then
    ({ p with low_quality_rejected := p.low_quality_rejected + 1 },
      some (.origin_status "WAITING_FOR_QUALITY"))
  else
    match parse_gngga gngga_string with
    | none => (p, none)
    | some point =>
      let cands := p.origin_candidates ++ [point.wgs]
      if p.required_points ≤ cands.length then
        let center_lat := listMeanQ (cands.map WgsPoint.lat)
        let center_lon := listMeanQ (cands.map WgsPoint.lon)
        let center_h := listMeanQ (cands.map WgsPoint.h)
        let max_dist := listMaxD 0 (cands.map (fun q =>
          haversine_3d ops center_lat center_lon center_h q.lat q.lon q.h))
        if max_dist ≤ p.max_spread_m then
          ({ p with
              origin_candidates := cands
              origin := some ⟨center_lat, center_lon, center_h,
                rotationMatrix ops center_lat center_lon,
                gnggaToEcef ops center_lat center_lon center_h⟩
              state := .ORIGIN_LOCKED },
            some (.origin_locked center_lat center_lon center_h))
        else
          ({ p with origin_candidates := [], origin_resets := p.origin_resets + 1 },
            some .origin_reset)
      else
        ({ p with origin_candidates := cands },
          some (.origin_collecting cands.length p.required_points))

/-- `_handle_processing` (lines 241-312): append to the ring buffer, compute
the raw adjacent-pair velocity, optionally the window-mean velocity, the ENU
displacement, and emit a `gnss_processed` record.  `now` is the processor's
own `time.time()` reading. -/
def handleProcessing (ops : FloatOps) (p : GnssProc) (gngga_string : String)
    (fix_quality : ℤ) (now : ℚ) : GnssProc × Option GnssOut :=
  if fix_quality < p.min_fix_quality then
    ({ p with low_quality_rejected := p.low_quality_rejected + 1 }, none)
  else
    match parse_gngga gngga_string with
    | none => (p, none)
    | some point =>
      let ts := now
      let ecef_coords := gnggaToEcef ops point.wgs.lat point.wgs.lon point.wgs.h
      let hist := pushBounded (p.filter_window_size + 1) p.history ⟨ts, ecef_coords, point.wgs⟩
      let p1 := { p with history := hist }
      if hist.length < 2 then (p1, none)
      else
        match hist.reverse with
        | p_new :: p_old :: _ =>
          let dt := p_new.hts - p_old.hts
          if dt < 1 / 100 then (p1, none)
          else
            match p.origin with
            | none => (p1, none)
            | some org =>
              let v_ecef_raw := Vec3.scale (1 / dt) (Vec3.sub p_new.hecef p_old.hecef)
              let v_enu_raw := org.rotation.apply v_ecef_raw
              let v_enu_filtered :=
                if p.filter_window_size ≤ hist.length then
                  let velocities_enu := (adjPairs hist).filterMap (fun pr =>
                    let idt := pr.2.hts - pr.1.hts
                    if 1 / 100 ≤ idt then
                      some (org.rotation.apply
                        (Vec3.scale (1 / idt) (Vec3.sub pr.2.hecef pr.1.hecef)))
                    else none)
                  if velocities_enu = [] then v_enu_raw else vecMean velocities_enu
                else v_enu_raw
              let pos_enu := org.rotation.apply (Vec3.sub ecef_coords org.ecef)
              let total_displacement_m :=
                ops.fsqrt (pos_enu.vx ^ 2 + pos_enu.vy ^ 2 + pos_enu.vz ^ 2)
              ({ p1 with total_processed := p1.total_processed + 1 },
                some (.gnss_processed (ratTrunc ts)
                  ⟨point.wgs.lat, point.wgs.lon, point.wgs.h,
                    pos_enu.vx, pos_enu.vy, pos_enu.vz,
                    total_displacement_m * 1000,
                    v_enu_filtered.vx, v_enu_filtered.vy, v_enu_filtered.vz,
                    ops.fsqrt (v_enu_filtered.vx ^ 2 + v_enu_filtered.vy ^ 2),
                    ops.fsqrt (v_enu_filtered.vx ^ 2 + v_enu_filtered.vy ^ 2) * 1000,
                    point.fix_quality, point.num_sats, point.hdop⟩))
        | _ => (p1, none)

/-- `process_gngga` (lines 153-170): drop frames with fewer than 10 fields or
empty latitude/longitude, decode fix quality, and dispatch on the state.
A raised `ValueError` on the fix-quality decode is caught and maps to
`none`. -/
def GnssProc.process_gngga (ops : FloatOps) (p : GnssProc) (raw_payload : String)
    (now : ℚ) : GnssProc × Option GnssOut :=
  let parts := pySplit ',' raw_payload
  if parts.length < 10 ∨ parts.getD 2 "" = "" ∨ parts.getD 4 "" = "" then (p, none)
  else
    match (if parts.getD 6 "" = "" then some 0 else pyInt? (parts.getD 6 "")) with
    | none => (p, none)
    | some fix_quality =>
      match p.state with
      | .AWAITING_CANDIDATES => handleOriginCollection ops p raw_payload fix_quality
      | .ORIGIN_LOCKED => handleProcessing ops p raw_payload fix_quality now

/-! ## Risk analyzer (`backend/app/landslide_analyzer.py`) -/

/-- The default classification table of `_classify_cruden_varnes`
(thresholds in m/s). -/
def defaultGnssClasses : List VClass :=
  [⟨"Extremely Rapid", some 5, none⟩,
    ⟨"Very Rapid", some (5 / 100), none⟩,
    ⟨"Rapid", some (5 / 10000), none⟩,
    ⟨"Moderate", some (21 / 100000000), none⟩,
    ⟨"Slow", some (16 / 10000000000), none⟩,
    ⟨"Very Slow", some (5 / 10000000000), none⟩,
    ⟨"Extremely Slow", some 0, none⟩]

/-- Sort key `x.get('min', x.get('mm_giay', 0) / 1000.0)`. -/
def vclassSortKey (c : VClass) : ℚ :=
  match c.vmin with
  | some m => m
  | none => c.mm_giay.getD 0 / 1000

/-- Effective threshold: `cls.get('min', 0)` overridden by
`cls['mm_giay'] / 1000` when that key is present. -/
def vclassThreshold (c : VClass) : ℚ :=
  match c.mm_giay with
  | some m => m / 1000
  | none => c.vmin.getD 0

/-- Stable insertion of one element into a descending-by-key list (Python
`sorted(..., reverse=True)` is stable). -/
def insertByKeyDesc (key : VClass → ℚ) (x : VClass) : List VClass → List VClass
  | [] => [x]
  | y :: ys => if key x ≤ key y then y :: insertByKeyDesc key x ys else x :: y :: ys

/-- Stable descending sort by key. -/
def sortByKeyDesc (key : VClass → ℚ) (xs : List VClass) : List VClass :=
  xs.foldl (fun acc x => insertByKeyDesc key x acc) []

/-- `_classify_cruden_varnes` (lines 317-348): first class, descending by
key, whose threshold the velocity meets; `Stable` when none matches. -/
def classifyCrudenVarnes (cfg : Cfg) (velocity_ms : ℚ) : String :=
  let classes := cfg.gnssClassification.getD defaultGnssClasses
  let sortedClasses := sortByKeyDesc vclassSortKey classes
  match sortedClasses.find? (fun c => decide (vclassThreshold c ≤ velocity_ms)) with
  | some c => c.name
  | none => "Stable"

/-- `analyze_gnss_displacement` (lines 255-315): the alert level comes from
the total 3-D displacement compared against the `Water.warning_threshold`
(default 0.15) and `Water.critical_threshold` (default 0.30) config entries;
the Cruden-Varnes classification of `speed_2d` (see `classifyCrudenVarnes`)
is computed by the source only for the unmodelled message/details strings and
does not influence the level. -/
def analyze_gnss_displacement (ops : FloatOps) (cfg : Cfg)
    (recent_data : List (ℚ × GnssData)) : Option Alert :=
  match recent_data.getLast? with
  | none => none
  | some (_, latest_point) =>
    let total_displacement_m :=
      ops.fsqrt (latest_point.pos_e ^ 2 + latest_point.pos_n ^ 2 + latest_point.pos_u ^ 2)
    let thresh_warn := getCfg cfg "Water" "warning_threshold" (15 / 100)
    let thresh_crit := getCfg cfg "Water" "critical_threshold" (30 / 100)
    if thresh_crit ≤ total_displacement_m then some ⟨.CRITICAL, "displacement"⟩
    else if thresh_warn ≤ total_displacement_m then some ⟨.WARNING, "displacement"⟩
    else none

/-- `analyze_rainfall` (lines 353-394): threshold comparison of the latest
intensity; an alert is returned exactly when the level is WARNING or
CRITICAL.  The watch threshold only selects an INFO message and the
`past_72h_data` argument is unused by the source body; both are omitted. -/
def analyze_rainfall (cfg : Cfg) (recent_data : List (ℚ × RainRecord)) : Option Alert :=
  match recent_data.getLast? with
  | none => none
  | some (_, latest) =>
    let warning := getCfg cfg "RainAlerting" "rain_intensity_warning_threshold" 25
    let critical := getCfg cfg "RainAlerting" "rain_intensity_critical_threshold" 50
    let intensity := latest.intensity_mm_h
    if critical ≤ intensity then some ⟨.CRITICAL, "rainfall"⟩
    else if warning ≤ intensity then some ⟨.WARNING, "rainfall"⟩
    else none

/-- `analyze_water_level` (lines 444-479). -/
def analyze_water_level (cfg : Cfg) (recent_data : List (ℚ × WaterRecord)) : Option Alert :=
  match recent_data.getLast? with
  | none => none
  | some (_, latest) =>
    let water_level := latest.water_level
    let warn := getCfg cfg "water" "warning_level" 999
    let crit := getCfg cfg "water" "critical_level" 999
    if crit ≤ water_level then some ⟨.CRITICAL, "water_level"⟩
    else if warn ≤ water_level then some ⟨.WARNING, "water_level"⟩
    else none

/-- `analyze_tilt` (lines 399-439). -/
def analyze_tilt (cfg : Cfg) (recent_data : List (ℚ × ImuRecord)) : Option Alert :=
  match recent_data.getLast? with
  | none => none
  | some (_, latest) =>
    let total_accel := latest.total_accel
    let shock_thresh := getCfg cfg "ImuAlerting" "shock_threshold_ms2" 20
    let max_tilt := max |latest.roll| |latest.pitch|
    let tilt_thresh : ℚ := 30
    if shock_thresh < total_accel then some ⟨.CRITICAL, "imu_tilt_shock"⟩
    else if tilt_thresh < max_tilt then some ⟨.WARNING, "imu_tilt_shock"⟩
    else none

/-! ## Broadcast hub (`backend/app/websocket.py`) -/

/-- An outbound live-stream message restricted to the fields
`ConnectionManager.broadcast` inspects for routing: `type`, `level`,
`station_id`, `sensor_type`.  The rest of the payload does not influence
routing. -/
structure Msg where
  mtype : String
  level : Option String := none
  station_id : Option ℤ := none
  sensor_type : Option String := none
deriving DecidableEq, Repr

/-- Python f-string interpolation of an optional integer (`None` prints as
`"None"`). -/
def pyShowInt : Option ℤ → String
  | some i => toString i
  | none => "None"

/-- Python f-string interpolation of an optional string. -/
def pyShowStr : Option String → String
  | some s => s
  | none => "None"

/-- Dictionary assignment (replace-or-add on the key). -/
def setAssoc {κ α : Type} [BEq κ] (m : List (κ × α)) (k : κ) (v : α) : List (κ × α) :=
  (k, v) :: m.filter (fun kv => !(kv.1 == k))

/-- `defaultdict(float)` read: a missing key reads as `0.0`.  (The implicit
insertion of the default value that a real `defaultdict` performs on read is
observationally identical and is not modelled.) -/
def lookupTime (m : List (String × ℚ)) (k : String) : ℚ := (m.lookup k).getD 0

/-- `throttle_intervals['sensor_data']` (websocket.py line 19): `0.5` s. -/
def throttleSensorData : ℚ := 1 / 2

/-- `throttle_intervals['station_status']` (websocket.py line 20): `2.0` s. -/
def throttleStationStatus : ℚ := 2

/-- State of `ConnectionManager`.  Observers are abstract identifiers.  The
periodic buffer-flush task and send-failure pruning are side concerns no
claim depends on; `broadcast` returns the list of messages handed to
`_send_to_all`, each of which is attempted to every active connection. -/
structure ConnectionManager where
  active_connections : List ℕ
  last_broadcast_time : List (String × ℚ)
  message_buffer : List (String × Msg)
deriving DecidableEq, Repr

/-- `ConnectionManager.broadcast` (lines 42-77) at wall time `now`: `alert`
messages and any message whose `level` is WARNING/CRITICAL are sent
immediately; `station_status` is throttled per station to one send per
`throttleStationStatus` seconds (discarded inside the window);
`sensor_data` is buffered per (station, sensor) key for the periodic flush
task; any other type does nothing. -/
def ConnectionManager.broadcast (m : ConnectionManager) (message : Msg) (now : ℚ) :
    ConnectionManager × List Msg :=
  if message.mtype = "alert" ∨ message.level = some "WARNING" ∨
      message.level = some "CRITICAL" then
    (m, [message])
  else if message.mtype = "station_status" then
    let key := "status_" ++ pyShowInt message.station_id
    if now - lookupTime m.last_broadcast_time key < throttleStationStatus then
      (m, [])
    else
      ({ m with last_broadcast_time := setAssoc m.last_broadcast_time key now },
        [message])
  else if message.mtype = "sensor_data" then
    let key := pyShowInt message.station_id ++ "_" ++ pyShowStr message.sensor_type
    ({ m with message_buffer := setAssoc m.message_buffer key message }, [])
  else
    (m, [])

/-! ## Settings (`backend/app/config.py`) -/

/-- `settings.SAVE_INTERVAL_DEFAULT` (seconds). -/
def SAVE_INTERVAL_DEFAULT : ℤ := 60

/-- `settings.SAVE_INTERVAL_GNSS` (seconds). -/
def SAVE_INTERVAL_GNSS : ℤ := 86400

/-- `settings.SAVE_INTERVAL_RAIN` (seconds). -/
def SAVE_INTERVAL_RAIN : ℤ := 3600

/-- `settings.SAVE_INTERVAL_WATER` (seconds). -/
def SAVE_INTERVAL_WATER : ℤ := 3600

/-- `settings.SAVE_INTERVAL_IMU` (seconds). -/
def SAVE_INTERVAL_IMU : ℤ := 2592000

/-! ## MQTT bridge (`backend/mqtt_bridge.py`) -/

/-- The four sensor types of the bridge. -/
inductive SensorType
  | gnss
  | rain
  | water
  | imu
deriving DecidableEq, Repr

/-- Per-type save interval selection (`process_pipeline` lines 257-266); the
`SAVE_INTERVAL_DEFAULT` starting value is always overridden because the four
types are exhaustive. -/
def saveInterval : SensorType → ℤ
  | .gnss => SAVE_INTERVAL_GNSS
  | .imu => SAVE_INTERVAL_IMU
  | .rain => SAVE_INTERVAL_RAIN
  | .water => SAVE_INTERVAL_WATER

/-- A cached processor object. -/
inductive ProcState
  | gnssP (p : GnssProc)
  | rainP (e : RainEngine)
  | waterP (e : WaterEngine)
  | imuP (e : IMUEngine)

/-- One binding of `topic_map`.  The Python binding stores a reference to the
processor object that also lives in `processors_cache` under the key
`f"{station_id}_{sensor_type}"`; since cache entries are never removed, the
reference is equivalent to looking the cache up by that key, which is how
this embedding models the aliasing.  The string key is modelled by the pair
(station id, sensor type); the encoding is injective because ids are digit
strings and type names contain no underscore. -/
structure TopicInfo where
  station_id : ℕ
  station_name : String
  stype : SensorType
  config : Cfg

/-- Mutable state of `MQTTBridge` relevant to the modelled paths. -/
structure BridgeState where
  topic_map : List (String × TopicInfo)
  processors_cache : List ((ℕ × SensorType) × ProcState)
  last_save_time : List ((ℕ × SensorType) × ℤ)

/-- A station row as the `reload_topics_from_db` loop body reads it: the
`has_*` flags and the `mqtt_topics` sub-document of the JSON config.  (The
declared SQLAlchemy `Station` model in `app/models/config.py` does not define
`has_gnss` and friends; this structure models the attribute set the loop
itself accesses.) -/
structure StationRow where
  sid : ℕ
  sname : String
  has_gnss : Bool
  has_rain : Bool
  has_water : Bool
  has_imu : Bool
  mqtt_gnss : Option String
  mqtt_rain : Option String
  mqtt_water : Option String
  mqtt_imu : Option String
  sconfig : Cfg

/-- A raised Python exception; only its occurrence matters to the reload
loop, which catches every `Exception`. -/
inductive PyErr
  | typeError
deriving DecidableEq, Repr

/-- The positional parameters of `GNSSVelocityProcessor.__init__` that have
no default value (gnss_processor.py lines 26-34): `device_id` and
`db_session_factory`. -/
def gnssCtorRequiredParams : List String := ["device_id", "db_session_factory"]

/-- The call `GNSSVelocityProcessor()` as written in `reload_topics_from_db`
(mqtt_bridge.py line 126): zero positional arguments are supplied, and a
Python call raises `TypeError` when fewer arguments arrive than there are
parameters without defaults. -/
def callGnssCtorNoArgs : Except PyErr ProcState :=
  if List.length ([] : List Unit) < gnssCtorRequiredParams.length then
    .error .typeError
  else .ok (.gnssP (GnssProc.init 0))

/-- Instantiate the processor for a sensor type exactly as the reload loop
does (lines 124-132). -/
def instantiateProcessor : SensorType → Except PyErr ProcState
  | .gnss => callGnssCtorNoArgs
  | .rain => .ok (.rainP RainEngine.init)
  | .water => .ok (.waterP WaterEngine.init)
  | .imu => .ok (.imuP IMUEngine.init)

/-- Loop-local state of one reload iteration: the shared processor cache
(mutated in place by Python) and the `new_map` being built. -/
structure RegState where
  cache : List ((ℕ × SensorType) × ProcState)
  new_map : List (String × TopicInfo)

/-- The `register` helper inside `reload_topics_from_db` (lines 116-140):
skip empty / blank topics; ensure a cached processor exists for the
`(station, type)` key, instantiating one on a miss; then bind the topic.
On a raise from the constructor the partial state is returned with the
error. -/
def registerTopic (s : StationRow) (stype : SensorType) (topic? : Option String)
    (st : RegState) : RegState × Option PyErr :=
  match topic? with
  | none => (st, none)
  | some topic =>
    if pyStrip topic = "" then (st, none)
    else
      let key := (s.sid, stype)
      match st.cache.lookup key with
      | some _ =>
        ({ st with new_map := setAssoc st.new_map topic ⟨s.sid, s.sname, stype, s.sconfig⟩ },
          none)
      | none =>
        match instantiateProcessor stype with
        | .error e => (st, some e)
        | .ok proc =>
          ({ cache := (key, proc) :: st.cache
             new_map := setAssoc st.new_map topic ⟨s.sid, s.sname, stype, s.sconfig⟩ },
            none)

/-- Sequence two state-updating statements: a raise in the first skips the
second (Python control flow). -/
def stepThen (r : RegState × Option PyErr) (f : RegState → RegState × Option PyErr) :
    RegState × Option PyErr :=
  match r with
  | (st, some e) => (st, some e)
  | (st, none) => f st

/-- Register the four possible sensors of one station in source order
(gnss, rain, water, imu), short-circuiting at the first raise. -/
def registerStation (s : StationRow) (st : RegState) : RegState × Option PyErr :=
  stepThen (if s.has_gnss then registerTopic s .gnss s.mqtt_gnss st else (st, none)) fun st1 =>
  stepThen (if s.has_rain then registerTopic s .rain s.mqtt_rain st1 else (st1, none)) fun st2 =>
  stepThen (if s.has_water then registerTopic s .water s.mqtt_water st2 else (st2, none)) fun st3 =>
  if s.has_imu then registerTopic s .imu s.mqtt_imu st3 else (st3, none)

/-- Fold `registerStation` over the station list, short-circuiting at the
first raise. -/
def runStations : List StationRow → RegState → RegState × Option PyErr
  | [], st => (st, none)
  | s :: rest, st =>
    match registerStation s st with
    | (st1, some e) => (st1, some e)
    | (st1, none) => runStations rest st1

/-- Result of one iteration of the `reload_topics_from_db` loop body. -/
structure ReloadResult where
  topic_map : List (String × TopicInfo)
  processors_cache : List ((ℕ × SensorType) × ProcState)
  errored : Bool

/-- One iteration of the `reload_topics_from_db` loop body (lines 102-165):
build `new_map` over all stations and on success install it as `topic_map`;
any raise is caught by the surrounding `except Exception`, which leaves
`topic_map` unchanged while the in-place mutations of `processors_cache`
persist.  Broker subscribe/unsubscribe calls are external effects not
modelled. -/
def reloadTopicsOnce (cache : List ((ℕ × SensorType) × ProcState))
    (topic_map : List (String × TopicInfo)) (stations : List StationRow) :
    ReloadResult :=
  match runStations stations ⟨cache, []⟩ with
  | (st, none) => ⟨st.new_map, st.cache, false⟩
  | (st, some _) => ⟨topic_map, st.cache, true⟩

/-- The processed record handed from a processor to the analyzer. -/
inductive ProcessedData
  | gnssD (d : GnssData)
  | rainD (r : RainRecord)
  | waterD (w : WaterRecord)
  | imuD (r : ImuRecord)
deriving DecidableEq, Repr

/-- Externally visible ordered effects of one `process_pipeline` call.
`wsBroadcast` is the event vocabulary of the broadcast hub
(`app/websocket.py`); whether the bridge ever produces it is the subject of
claim C2. -/
inductive Effect
  | wsBroadcast (message : Msg)
  | dbStationOnline (station_id : ℕ) (ts : ℤ)
  | dbInsertSensorData (station_id : ℕ) (ts : ℤ) (stype : SensorType)
  | dbInsertAlert (station_id : ℕ) (ts : ℤ) (level : Level) (category : String)
deriving DecidableEq, Repr

/-- Whether an effect is a database write. -/
def Effect.isDbWrite : Effect → Bool
  | .wsBroadcast _ => false
  | _ => true

/-- Replace a processor in the cache (a Python in-place mutation of the
shared object). -/
def updateProcCache (st : BridgeState) (key : ℕ × SensorType) (p : ProcState) :
    BridgeState :=
  { st with processors_cache := setAssoc st.processors_cache key p }

/-- Steps 3-5 of `process_pipeline` (lines 224-314): run the matching
analyzer on the single-record wrapper, decide danger and throttled
persistence, and perform the DB writes in source order (station online
update, then conditional sensor-data insert, then conditional alert
insert).  DB errors are caught and logged in the source; effects here are
the attempted writes. -/
def pipelineTail (ops : FloatOps) (st1 : BridgeState) (station_id : ℕ)
    (sensor_type : SensorType) (station_config : Cfg) (current_timestamp : ℤ)
    (processed : Option ProcessedData) : BridgeState × List Effect :=
  match processed with
  | none => (st1, [])
  | some pd =>
    let alert : Option Alert :=
      match pd with
      | .gnssD d => analyze_gnss_displacement ops station_config [((current_timestamp : ℚ), d)]
      | .rainD r => analyze_rainfall station_config [((current_timestamp : ℚ), r)]
      | .waterD w => analyze_water_level station_config [((current_timestamp : ℚ), w)]
      | .imuD r => analyze_tilt station_config [((current_timestamp : ℚ), r)]
    let is_dangerous : Bool :=
      match alert with
      | some a => a.level == Level.WARNING || a.level == Level.CRITICAL
      | none => false
    let save_data_now : Bool :=
      if is_dangerous then true
      else
        let last_saved := (st1.last_save_time.lookup (station_id, sensor_type)).getD 0
        decide (saveInterval sensor_type ≤ current_timestamp - last_saved)
    let effects :=
      [Effect.dbStationOnline station_id current_timestamp] ++
      (if save_data_now then
        [Effect.dbInsertSensorData station_id current_timestamp sensor_type]
      else []) ++
      (match alert, is_dangerous with
       | some a, true => [Effect.dbInsertAlert station_id current_timestamp a.level a.category]
       | _, _ => [])
    let st2 :=
      if save_data_now then
        { st1 with
            last_save_time :=
              setAssoc st1.last_save_time (station_id, sensor_type) current_timestamp }
      else st1
    (st2, effects)

/-- `process_pipeline` (mqtt_bridge.py lines 173-314).  `jsonDecode`
abstracts `json.loads` (`none` models `JSONDecodeError`); `now` is the wall
clock, read once as `current_timestamp = int(time.time())` and also passed to
the GNSS processor for its own `time.time()` call.  A GNSS result that is not
`gnss_processed` (the `origin_locked` early return as well as the collection
progress markers) leads to no analysis and no DB write. -/
def process_pipeline (jsonDecode : String → Option Payload) (ops : FloatOps)
    (st : BridgeState) (topic : String) (raw_payload : String) (now : ℚ) :
    BridgeState × List Effect :=
  match st.topic_map.lookup topic with
  | none => (st, [])
  | some info =>
    let current_timestamp := ratTrunc now
    match info.stype, st.processors_cache.lookup (info.station_id, info.stype) with
    | .gnss, some (.gnssP p) =>
      let res := p.process_gngga ops raw_payload now
      let st1 := updateProcCache st (info.station_id, .gnss) (.gnssP res.1)
      let processed : Option ProcessedData :=
        match res.2 with
        | some (.gnss_processed _ d) => some (.gnssD d)
        | _ => none
      pipelineTail ops st1 info.station_id .gnss info.config current_timestamp processed
    | .rain, some (.rainP e) =>
      match jsonDecode raw_payload with
      | none => (st, [])
      | some payload_json =>
        let res := e.process payload_json (current_timestamp : ℚ)
        let st1 := updateProcCache st (info.station_id, .rain) (.rainP res.1)
        pipelineTail ops st1 info.station_id .rain info.config current_timestamp
          (some (.rainD res.2))
    | .water, some (.waterP e) =>
      match jsonDecode raw_payload with
      | none => (st, [])
      | some payload_json =>
        let res := e.process payload_json (current_timestamp : ℚ)
        let st1 := updateProcCache st (info.station_id, .water) (.waterP res.1)
        pipelineTail ops st1 info.station_id .water info.config current_timestamp
          (some (.waterD res.2))
    | .imu, some (.imuP e) =>
      match jsonDecode raw_payload with
      | none => (st, [])
      | some payload_json =>
        let res := IMUEngine.process ops e payload_json
        let st1 := updateProcCache st (info.station_id, .imu) (.imuP res.1)
        pipelineTail ops st1 info.station_id .imu info.config current_timestamp
          (some (.imuD res.2))
    | _, _ => (st, [])

/-! ## Spec-modelled confirmation debounce (comparison point for claim C1) -/

/-- Modelled from the spec: the per-(station, category) confirmation-debounce
state `(consecutive_count, last_level)` plus the active emitted level, per
spec section 4.3: "if candidate ∈ {WARNING, CRITICAL}: if level changed,
reset counter to 1 and store level, emit nothing; else increment counter;
emit the alert only when counter ≥ confirm_steps ... If candidate is INFO:
decrement counter toward 0; when counter reaches 0, clear last level", with
emission deduplicated against the previously emitted level while an alert is
active.  No source file of this repository implements this; it exists solely
as the comparison point for claim C1. -/
structure DebounceState where
  count : ℕ
  lastLevel : Option Level
  activeEmitted : Option Level
deriving DecidableEq, Repr

/-- Modelled from the spec: the initial debounce state. -/
def DebounceState.init : DebounceState := ⟨0, none, none⟩

/-- Modelled from the spec: one debounce step on a candidate level, returning
the new state and whether an alert is emitted at this step. -/
def debounceStep (k : ℕ) (st : DebounceState) (cand : Level) : DebounceState × Bool :=
  match cand with
  | .INFO =>
    let c := st.count - 1
    if c = 0 then (⟨0, none, none⟩, false)
    else (⟨c, st.lastLevel, st.activeEmitted⟩, false)
  | l =>
    let c := if st.lastLevel = some l then st.count + 1 else 1
    if k ≤ c ∧ st.activeEmitted ≠ some l then (⟨c, some l, some l⟩, true)
    else (⟨c, some l, st.activeEmitted⟩, false)

/-- Modelled from the spec: the emission sequence over a candidate stream. -/
def debounceRun (k : ℕ) : DebounceState → List Level → List Bool
  | _, [] => []
  | st, c :: cs =>
    let step := debounceStep k st c
    step.2 :: debounceRun k step.1 cs

/-- Candidate alert level for a rain record (the threshold comparison that
`analyze_rainfall` performs on the latest reading). -/
def rainCandidate (cfg : Cfg) (r : RainRecord) : Level :=
  let warning := getCfg cfg "RainAlerting" "rain_intensity_warning_threshold" 25
  let critical := getCfg cfg "RainAlerting" "rain_intensity_critical_threshold" 50
  if critical ≤ r.intensity_mm_h then .CRITICAL
  else if warning ≤ r.intensity_mm_h then .WARNING
  else .INFO

/-- The per-frame rain path of `process_pipeline`: process each payload, then
call `analyze_rainfall` on the single-record wrapper `[{timestamp, data}]`
exactly as the bridge does; returns the per-step alert trace. -/
def rainRunAlerts (cfg : Cfg) : RainEngine → List (Payload × ℚ) → List (Option Alert)
  | _, [] => []
  | e, (payload, t) :: rest =>
    let res := e.process payload t
    analyze_rainfall cfg [(t, res.2)] :: rainRunAlerts cfg res.1 rest

/-- The processed-record trace of the same rain run. -/
def rainRunRecords : RainEngine → List (Payload × ℚ) → List RainRecord
  | _, [] => []
  | e, (payload, t) :: rest =>
    let res := e.process payload t
    res.2 :: rainRunRecords res.1 rest

/-- Pre-state/output trace of a GNSS processor over an input stream of
(frame, wall-time) pairs. -/
def gnssRunTrace (ops : FloatOps) : GnssProc → List (String × ℚ) →
    List (GnssState × Option GnssOut)
  | _, [] => []
  | p, (raw, t) :: rest =>
    let res := p.process_gngga ops raw t
    (p.state, res.2) :: gnssRunTrace ops res.1 rest

/-! ## Concrete instances used by witnesses and counterexamples -/

/-- A concrete instantiation of the abstract floating-point functions, used
only to evaluate witnesses and counterexamples at concrete inputs (the
verified properties hold for every `FloatOps`). -/
def testOps : FloatOps :=
  ⟨fun _ => 0, fun _ => 1, fun q => q, fun y _ => y, fun q => q, fun q => q⟩

/-! ## Claim C9: water fallback law -/

/-- The water value extraction
`payload.get("value") or payload.get("water_level")` followed by `float`;
`none` when the chain yields no value or the conversion raises. -/
def waterExtract (p : Payload) : Option ℚ :=
  (pyOr p.value p.water_level).bind PyVal.asFloat

/-- **C9 (amended).** Water fallback law as the code implements it: writing
`extract p` for the chain `float(payload.get("value") or
payload.get("water_level"))`, an in-range extracted value is emitted (rounded
to 3 decimals) with `is_fallback = false` and committed as the new last valid
value with a history append; an out-of-range extracted value, a failed
extraction, or a missing field yields the last valid value with
`is_fallback = true` and leaves the engine state unchanged.  Because the
`or` chain tests truthiness, a supplied field equal to 0 extracts as the
other field or as missing (see the counterexample), which is the sole
correction to the claim. -/
theorem C9_water_fallback_law (e : WaterEngine) (p : Payload) (ts : ℚ) :
    (∀ q, waterExtract p = some q → e.valid_min ≤ q → q ≤ e.valid_max →
      (WaterEngine.process e p ts).2 = ⟨roundTo 3 q, false⟩ ∧
      (WaterEngine.process e p ts).1.last_valid_value = q ∧
      (WaterEngine.process e p ts).1.history =
        pushBounded e.historySize e.history (ts, q)) ∧
    (∀ q, waterExtract p = some q → ¬(e.valid_min ≤ q ∧ q ≤ e.valid_max) →
      (WaterEngine.process e p ts).2 = ⟨roundTo 3 e.last_valid_value, true⟩ ∧
      (WaterEngine.process e p ts).1 = e) ∧
    (waterExtract p = none →
      (WaterEngine.process e p ts).2 = ⟨roundTo 3 e.last_valid_value, true⟩ ∧
      (WaterEngine.process e p ts).1 = e) := by
  unfold waterExtract WaterEngine.process WaterEngine.fallbackRec
  cases hv : pyOr p.value p.water_level with
  | none => simp
  | some v =>
    cases hf : v.asFloat with
    | none => simp [hf]
    | some q0 =>
      simp only [hf, Option.some_bind]
      refine ⟨?_, ?_, ?_⟩
      · intro q hq h1 h2
        obtain rfl : q0 = q := by injection hq
        rw [if_pos ⟨h1, h2⟩]
        exact ⟨rfl, rfl, rfl⟩
      · intro q hq hrange
        obtain rfl : q0 = q := by injection hq
        rw [if_neg hrange]
        exact ⟨rfl, rfl⟩
      · intro hq
        exact absurd hq (by simp)

/-- Witness for C9: the in-range value 3 m is committed and emitted
unrounded with `is_fallback = false`. -/
theorem C9_water_fallback_law_witness :
    (WaterEngine.process WaterEngine.init { value := some (PyVal.num 3) } 5).2 =
      ⟨roundTo 3 3, false⟩ ∧
    (WaterEngine.process WaterEngine.init { value := some (PyVal.num 3) } 5).1.last_valid_value
      = 3 ∧
    (WaterEngine.process WaterEngine.init
        { value := some (PyVal.num 3) } 5).1.history =
      pushBounded WaterEngine.init.historySize WaterEngine.init.history (5, 3) :=
  (C9_water_fallback_law WaterEngine.init { value := some (PyVal.num 3) } 5).1 3
    (by norm_num +decide [waterExtract, pyOr, PyVal.num])
    (by norm_num [WaterEngine.init]) (by norm_num [WaterEngine.init])

/-- Engine state for the C9 counterexample: last valid value 2 m. -/
def waterEngineEx : WaterEngine := ⟨[], 36, 0, 50, 2⟩

/-- **C9, counterexample.**  The payload `{"value": 0}` carries the in-range
reading 0 m (0 ≤ 0 ≤ 50), yet because `0` is falsy in the chain
`payload.get("value") or payload.get("water_level")` the processor emits the
previous value 2 with `is_fallback = true`, contradicting the claim that
every in-range value is emitted with `is_fallback = false`. -/
theorem C9_counterexample :
    (WaterEngine.process waterEngineEx { value := some (PyVal.num 0) } 10).2 =
      ⟨2, true⟩ ∧
    waterEngineEx.valid_min ≤ 0 ∧ (0 : ℚ) ≤ waterEngineEx.valid_max := by
  refine ⟨?_, by norm_num [waterEngineEx], by norm_num [waterEngineEx]⟩
  norm_num +decide [WaterEngine.process, WaterEngine.fallbackRec, waterEngineEx,
    pyOr, PyVal.num, roundTo]

/-! ## Claim C10: IMU zero readings replaced by last valid values -/

/-- A payload field that cannot raise in `float(...)`: absent, or present
with a successful conversion. -/
def okField : Option PyVal → Prop
  | none => True
  | some v => v.asFloat.isSome

/-- The `or` chain resolves a supplied 0 to the last valid value when the
long-name alias is absent. -/
theorem imuAxis_zero (lastv : ℚ) :
    imuAxis (some (PyVal.num 0)) none lastv = some lastv := by
  norm_num [imuAxis, pyOr, PyVal.num]

/-- The resolved value of a roll/pitch field when no raise occurs. -/
def resolveAngleVal (field : Option PyVal) (canDerive : Bool) (derived fallbackv : ℚ) : ℚ :=
  match field with
  | none => if canDerive then derived else fallbackv
  | some v => v.asFloat.getD 0

/-- A raise-free roll/pitch field resolves to `resolveAngleVal`. -/
theorem resolveAngle_eq_some (field : Option PyVal) (h : okField field)
    (cd : Bool) (d fb : ℚ) :
    resolveAngle field cd d fb = some (resolveAngleVal field cd d fb) := by
  cases field with
  | none => cases cd <;> rfl
  | some v =>
    obtain ⟨w, hw⟩ := Option.isSome_iff_exists.mp h
    simp [resolveAngle, resolveAngleVal, hw]

/-- The resolved value of the yaw field when no raise occurs. -/
def resolveCarryVal (field : Option PyVal) (fallbackv : ℚ) : ℚ :=
  match field with
  | none => fallbackv
  | some v => v.asFloat.getD 0

/-- A raise-free yaw field resolves to `resolveCarryVal`. -/
theorem resolveCarry_eq_some (field : Option PyVal) (h : okField field) (fb : ℚ) :
    resolveCarry field fb = some (resolveCarryVal field fb) := by
  cases field with
  | none => rfl
  | some v =>
    obtain ⟨w, hw⟩ := Option.isSome_iff_exists.mp h
    simp [resolveCarry, resolveCarryVal, hw]

/-- **C10.** A supplied acceleration or gyro field whose value is exactly 0
(with the alias spelling absent and the remaining fields raise-free) is
treated as missing by the `or` chains of `IMUEngine.process` and replaced by
the last valid value for that axis in the emitted record. -/
theorem C10_imu_zero_replaced (ops : FloatOps) (e : IMUEngine) (p : Payload)
    (hax : p.ax = some (PyVal.num 0)) (hax2 : p.accel_x = none)
    (hay : p.ay = some (PyVal.num 0)) (hay2 : p.accel_y = none)
    (haz : p.az = some (PyVal.num 0)) (haz2 : p.accel_z = none)
    (hgx : p.gx = some (PyVal.num 0)) (hgx2 : p.gyro_x = none)
    (hgy : p.gy = some (PyVal.num 0)) (hgy2 : p.gyro_y = none)
    (hgz : p.gz = some (PyVal.num 0)) (hgz2 : p.gyro_z = none)
    (hroll : okField p.roll) (hpitch : okField p.pitch) (hyaw : okField p.yaw) :
    (IMUEngine.process ops e p).2.iax = roundTo 3 e.last_valid_data.iax ∧
    (IMUEngine.process ops e p).2.iay = roundTo 3 e.last_valid_data.iay ∧
    (IMUEngine.process ops e p).2.iaz = roundTo 3 e.last_valid_data.iaz ∧
    (IMUEngine.process ops e p).2.igx = roundTo 3 e.last_valid_data.igx ∧
    (IMUEngine.process ops e p).2.igy = roundTo 3 e.last_valid_data.igy ∧
    (IMUEngine.process ops e p).2.igz = roundTo 3 e.last_valid_data.igz := by
  unfold IMUEngine.process
  rw [hax, hax2, hay, hay2, haz, haz2, hgx, hgx2, hgy, hgy2, hgz, hgz2]
  simp [imuAxis_zero, resolveAngle_eq_some p.roll hroll,
    resolveAngle_eq_some p.pitch hpitch, resolveCarry_eq_some p.yaw hyaw]

/-- Witness for C10: all six axes supplied as 0 on the fresh engine; the
emitted vertical acceleration is the remembered 9.8, not the measured 0. -/
theorem C10_imu_zero_replaced_witness :
    (IMUEngine.process testOps IMUEngine.init
        { ax := some (PyVal.num 0), ay := some (PyVal.num 0), az := some (PyVal.num 0),
          gx := some (PyVal.num 0), gy := some (PyVal.num 0), gz := some (PyVal.num 0) }).2.iaz
      = roundTo 3 (98 / 10) := by
  have h := C10_imu_zero_replaced testOps IMUEngine.init
    { ax := some (PyVal.num 0), ay := some (PyVal.num 0), az := some (PyVal.num 0),
      gx := some (PyVal.num 0), gy := some (PyVal.num 0), gz := some (PyVal.num 0) }
    rfl rfl rfl rfl rfl rfl rfl rfl rfl rfl rfl rfl trivial trivial trivial
  simpa [IMUEngine.init] using h.2.2.1

/-! ## Claim C8: rain intensity law -/

/-- **C8 (amended).** Rain intensity law with the output rounding the source
applies: for a payload whose `rainfall_mm` converts to `q`, a supplied
convertible `intensity_mm_h` is emitted rounded to 2 decimals; an absent
`intensity_mm_h` with a prior history sample `(pt, pr)` is emitted as
`round(max 0 ((q - pr) / Δt · 3600), 2)` when `0 < Δt < 3600` and
`round(0, 2) = 0` otherwise — in particular a negative rainfall delta
(gauge reset) yields 0. -/
theorem C8_rain_intensity_law (e : RainEngine) (p : Payload) (ts q : ℚ) (pv : PyVal)
    (hr : p.rainfall_mm = some pv) (hq : pv.asFloat = some q) :
    (∀ iv w, p.intensity_mm_h = some iv → iv.asFloat = some w →
      (RainEngine.process e p ts).2.intensity_mm_h = roundTo 2 w) ∧
    (∀ pt pr, p.intensity_mm_h = none → e.history.getLast? = some (pt, pr) →
      (RainEngine.process e p ts).2.intensity_mm_h =
        roundTo 2 (if 0 < ts - pt ∧ ts - pt < 3600 then
          max 0 ((q - pr) / (ts - pt) * 3600) else 0)) := by
  constructor
  · intro iv w hiv hw
    simp [RainEngine.process, hr, hq, hiv, hw]
  · intro pt pr hiv hlast
    have heq : (if 0 < ts - pt ∧ ts - pt < 3600 ∧ 0 ≤ q - pr then
        some ((q - pr) / (ts - pt) * 3600) else some 0) =
        some (if 0 < ts - pt ∧ ts - pt < 3600 then
          max 0 ((q - pr) / (ts - pt) * 3600) else 0) := by
      by_cases h1 : 0 < ts - pt
      · by_cases h2 : ts - pt < 3600
        · by_cases h3 : 0 ≤ q - pr
          · rw [if_pos ⟨h1, h2, h3⟩, if_pos ⟨h1, h2⟩]
            have : 0 ≤ (q - pr) / (ts - pt) * 3600 :=
              mul_nonneg (div_nonneg h3 (le_of_lt h1)) (by norm_num)
            rw [max_eq_right this]
          · rw [if_neg (by tauto), if_pos ⟨h1, h2⟩]
            have hneg : (q - pr) / (ts - pt) * 3600 ≤ 0 :=
              mul_nonpos_of_nonpos_of_nonneg
                (div_nonpos_of_nonpos_of_nonneg (by linarith) (le_of_lt h1))
                (by norm_num)
            rw [max_eq_left hneg]
        · rw [if_neg (by tauto), if_neg (by tauto)]
      · rw [if_neg (by tauto), if_neg (by tauto)]
    simp only [RainEngine.process, hr, hq, hiv, hlast, heq]

/-- Witness for C8: rainfall 10 mm at t = 0 then 15 mm at t = 1800 s derives
intensity 10 mm/h (spec scenario 4). -/
theorem C8_rain_intensity_law_witness :
    (RainEngine.process ⟨[(0, 10)], 60, 10, 0⟩
        { rainfall_mm := some (PyVal.num 15) } 1800).2.intensity_mm_h = 10 := by
  have h := (C8_rain_intensity_law ⟨[(0, 10)], 60, 10, 0⟩
    { rainfall_mm := some (PyVal.num 15) } 1800 15 (PyVal.num 15) rfl rfl).2
    0 10 rfl rfl
  rw [h]
  norm_num [roundTo]

/-- Engine state for the C8 counterexample: one history sample (t = 0,
rainfall 0 mm). -/
def rainEngineEx : RainEngine := ⟨[(0, 0)], 60, 0, 0⟩

/-- **C8, counterexample.**  With Δrainfall = 1 mm over Δt = 2999 s the code
emits `round(3600/2999, 2) = 1.2`, while the claimed law demands the exact
value `max 0 (1/2999 · 3600) = 3600/2999 ≠ 1.2`: the derived intensity is
rounded to 2 decimals before being emitted, which the claim states only for
the supplied-intensity branch. -/
theorem C8_counterexample :
    (RainEngine.process rainEngineEx { rainfall_mm := some (PyVal.num 1) }
        2999).2.intensity_mm_h = 6 / 5 ∧
    (6 / 5 : ℚ) ≠ max 0 ((1 - 0) / (2999 - 0) * 3600) := by
  constructor
  · norm_num +decide [RainEngine.process, rainEngineEx, PyVal.num, roundTo]
  · norm_num

/-! ## Claim C5: station_status throttling -/

/-- **C5 (amended).** For a `station_status` message that does not carry a
WARNING/CRITICAL `level` field, the hub enforces a minimum interval of
2.0 seconds per station (`throttle_intervals['station_status']`): a message
arriving strictly less than 2 s after the last send for the station key is
discarded with no state change, and one arriving at or after 2 s is recorded
and handed to `_send_to_all` (attempted to every active connection). -/
theorem C5_station_status_throttle (m : ConnectionManager) (msg : Msg) (now : ℚ)
    (hty : msg.mtype = "station_status")
    (hlv1 : msg.level ≠ some "WARNING") (hlv2 : msg.level ≠ some "CRITICAL") :
    (now - lookupTime m.last_broadcast_time ("status_" ++ pyShowInt msg.station_id) < 2 →
      m.broadcast msg now = (m, [])) ∧
    (2 ≤ now - lookupTime m.last_broadcast_time ("status_" ++ pyShowInt msg.station_id) →
      m.broadcast msg now =
        ({ m with last_broadcast_time :=
            setAssoc m.last_broadcast_time ("status_" ++ pyShowInt msg.station_id) now },
          [msg])) := by
  unfold ConnectionManager.broadcast
  rw [hty]
  rw [if_neg (by simp [hlv1, hlv2]), if_pos rfl]
  unfold throttleStationStatus
  constructor
  · intro h
    rw [if_pos h]
  · intro h
    rw [if_neg (not_lt.mpr h)]

/-- Message used by the C5 witness and counterexample. -/
def statusMsgEx : Msg := { mtype := "station_status", station_id := some 1 }

/-- Witness for C5: on a fresh hub (last send time 0) a message at t = 5 is
sent. -/
theorem C5_station_status_throttle_witness :
    ConnectionManager.broadcast ⟨[7], [], []⟩ statusMsgEx 5 =
      (⟨[7], setAssoc [] ("status_" ++ pyShowInt statusMsgEx.station_id) 5, []⟩,
        [statusMsgEx]) := by
  have h := (C5_station_status_throttle ⟨[7], [], []⟩ statusMsgEx 5 rfl
    (by simp [statusMsgEx]) (by simp [statusMsgEx])).2
    (by norm_num [lookupTime])
  rw [h]

/-- Hub state for the C5 counterexample: station 1 last served at t = 0. -/
def cmEx : ConnectionManager := ⟨[7], [("status_1", 0)], []⟩

/-- **C5, counterexample.**  A `station_status` message for station 1
arriving 1 s after the previous send — at or after the claimed 0.5 s
minimum interval — is discarded, because the source interval is 2.0 s,
not 0.5 s. -/
theorem C5_counterexample :
    (ConnectionManager.broadcast cmEx statusMsgEx 1).2 = [] ∧
    (1 : ℚ) - lookupTime cmEx.last_broadcast_time "status_1" ≥ 1 / 2 := by
  have hlk : (List.lookup ("status_" ++ toString (1 : ℤ))
      [("status_1", (0 : ℚ))]).getD 0 = 0 := by decide
  constructor
  · norm_num +decide [ConnectionManager.broadcast, cmEx, statusMsgEx, lookupTime,
      throttleStationStatus, pyShowInt, hlk]
  · norm_num +decide [cmEx, lookupTime]

/-! ## Claim C4: GNSS candidate level -/

/-- **C4 (amended).** The GNSS alert level is derived from the total 3-D
displacement compared against the `Water.warning_threshold` (default 0.15 m)
and `Water.critical_threshold` (default 0.30 m) config entries — CRITICAL at
or above critical, WARNING at or above warning, otherwise no alert — and is
unchanged under any replacement of the `GNSS_Classification` table: the
velocity classification name influences only the unmodelled message/details
strings. -/
theorem C4_gnss_level_from_displacement (ops : FloatOps) (cfg : Cfg)
    (recent : List (ℚ × GnssData)) (t : ℚ) (latest : GnssData)
    (hl : recent.getLast? = some (t, latest)) :
    analyze_gnss_displacement ops cfg recent =
      (if getCfg cfg "Water" "critical_threshold" (30 / 100) ≤
          ops.fsqrt (latest.pos_e ^ 2 + latest.pos_n ^ 2 + latest.pos_u ^ 2) then
        some ⟨Level.CRITICAL, "displacement"⟩
      else if getCfg cfg "Water" "warning_threshold" (15 / 100) ≤
          ops.fsqrt (latest.pos_e ^ 2 + latest.pos_n ^ 2 + latest.pos_u ^ 2) then
        some ⟨Level.WARNING, "displacement"⟩
      else none) ∧
    (∀ tbl, analyze_gnss_displacement ops { cfg with gnssClassification := tbl } recent =
      analyze_gnss_displacement ops cfg recent) := by
  constructor
  · simp only [analyze_gnss_displacement, hl]
  · intro tbl
    simp only [analyze_gnss_displacement, hl, getCfg]

/-- GNSS record for the C4 witness: displacement 1 m east, zero velocity. -/
def gnssRecDisp : GnssData := ⟨0, 0, 0, 1, 0, 0, 1000, 0, 0, 0, 0, 0, 4, 8, 1⟩

/-- Witness for C4: a 1 m displacement with zero velocity raises CRITICAL
(default critical threshold 0.30 m). -/
theorem C4_gnss_level_from_displacement_witness :
    analyze_gnss_displacement testOps Cfg.empty [(0, gnssRecDisp)] =
      some ⟨Level.CRITICAL, "displacement"⟩ := by
  rw [(C4_gnss_level_from_displacement testOps Cfg.empty [(0, gnssRecDisp)] 0
    gnssRecDisp rfl).1]
  norm_num [testOps, getCfg, Cfg.empty, gnssRecDisp]

/-- GNSS record for the C4 counterexample: zero displacement with
`speed_2d = 10` m/s. -/
def gnssRecFast : GnssData := ⟨0, 0, 0, 0, 0, 0, 0, 0, 0, 0, 10, 10000, 4, 8, 1⟩

/-- **C4, counterexample.**  A record whose velocity classifies as
"Extremely Rapid" (10 m/s ≥ 5 m/s) but whose displacement is zero yields no
alert at all — the analyzer does not map the classification name to a level,
contradicting "EXTREMELY RAPID or VERY RAPID yields CRITICAL". -/
theorem C4_counterexample :
    analyze_gnss_displacement testOps Cfg.empty [(0, gnssRecFast)] = none ∧
    classifyCrudenVarnes Cfg.empty gnssRecFast.speed_2d = "Extremely Rapid" := by
  constructor
  · norm_num [analyze_gnss_displacement, gnssRecFast, testOps, getCfg, Cfg.empty]
  · norm_num +decide [classifyCrudenVarnes, Cfg.empty, defaultGnssClasses,
      sortByKeyDesc, insertByKeyDesc, vclassSortKey, vclassThreshold, gnssRecFast,
      List.find?]

/-! ## Claim C1: confirmation debounce -/

/-- Per-step bridge wiring: the alert on a single-record wrapper is present
exactly when the record's candidate level is dangerous. -/
theorem analyze_rainfall_isSome (cfg : Cfg) (t : ℚ) (r : RainRecord) :
    (analyze_rainfall cfg [(t, r)]).isSome =
      (rainCandidate cfg r == Level.WARNING || rainCandidate cfg r == Level.CRITICAL) := by
  have h : ([(t, r)] : List (ℚ × RainRecord)).getLast? = some (t, r) := rfl
  simp only [analyze_rainfall, rainCandidate, h]
  split_ifs <;> simp

/-- **C1 (amended).** The analyzer applies no confirmation debounce: along
any rain run driven exactly as `process_pipeline` drives it, an alert is
emitted at step i if and only if the candidate level of the record processed
at step i is WARNING or CRITICAL — independently of every earlier step, so a
single dangerous sample alerts immediately and consecutive dangerous samples
re-alert at every step. -/
theorem C1_no_debounce (cfg : Cfg) (e : RainEngine) (inputs : List (Payload × ℚ)) :
    (rainRunAlerts cfg e inputs).map Option.isSome =
      (rainRunRecords e inputs).map
        (fun r => rainCandidate cfg r == Level.WARNING ||
          rainCandidate cfg r == Level.CRITICAL) := by
  induction inputs generalizing e with
  | nil => rfl
  | cons hd tl ih =>
    obtain ⟨p, t⟩ := hd
    simp only [rainRunAlerts, rainRunRecords, List.map_cons, List.cons.injEq]
    exact ⟨analyze_rainfall_isSome cfg t _, ih _⟩

/-- Payload for the C1 counterexample: a single dangerous rain sample
(intensity 30 mm/h ≥ warning 25). -/
def rainPayload30 : Payload :=
  { rainfall_mm := some (PyVal.num 5), intensity_mm_h := some (PyVal.num 30) }

/-- **C1, counterexample.**  With the claim's default rain
`confirm_steps = 2`, a one-element input sequence whose single candidate
level is WARNING: the code emits an alert at step 0, while the claimed
debounce rule emits nothing (a single dangerous sample with k > 1 must emit
nothing). -/
theorem C1_counterexample :
    (rainRunAlerts Cfg.empty RainEngine.init [(rainPayload30, 0)]).map Option.isSome
      = [true] ∧
    rainRunRecords RainEngine.init [(rainPayload30, 0)] = [⟨5, 30, false⟩] ∧
    rainCandidate Cfg.empty ⟨5, 30, false⟩ = Level.WARNING ∧
    debounceRun 2 DebounceState.init [Level.WARNING] = [false] := by
  refine ⟨?_, ?_, ?_, by decide⟩
  · norm_num [rainRunAlerts, RainEngine.process, rainPayload30, PyVal.num,
      analyze_rainfall, getCfg, Cfg.empty, RainEngine.init, roundTo]
  · norm_num [rainRunRecords, RainEngine.process, rainPayload30, PyVal.num,
      RainEngine.init, roundTo, pushBounded]
  · norm_num [rainCandidate, getCfg, Cfg.empty]

/-! ## Claim C3: GNSS registration aborts the reload cycle -/

/-- No GNSS processor is cached under any station key.  This holds initially
(the cache starts empty) and invariantly, because the GNSS constructor call
always raises before any insertion. -/
def noGnssCached (cache : List ((ℕ × SensorType) × ProcState)) : Prop :=
  ∀ i : ℕ, cache.lookup (i, SensorType.gnss) = none

/-- A station that makes the reload loop instantiate a GNSS processor:
`has_gnss` is set and the configured GNSS topic is present and non-blank. -/
def gnssQualifies (s : StationRow) : Prop :=
  s.has_gnss = true ∧ ∃ t, s.mqtt_gnss = some t ∧ pyStrip t ≠ ""

/-- Sequencing through a raise-free first statement. -/
theorem stepThen_none {r : RegState × Option PyErr} {f : RegState → RegState × Option PyErr}
    (h : r.2 = none) : stepThen r f = f r.1 := by
  rcases r with ⟨st, e⟩
  cases e with
  | none => rfl
  | some e => cases h

/-- A raise in the first statement short-circuits the second. -/
theorem stepThen_err {r : RegState × Option PyErr} {f : RegState → RegState × Option PyErr}
    {e : PyErr} (h : r.2 = some e) : stepThen r f = (r.1, some e) := by
  rcases r with ⟨st, e0⟩
  cases e0 with
  | none => cases h
  | some e0 => cases h; rfl

/-- Registering a qualifying GNSS sensor against a cache with no GNSS entry
raises `TypeError` and leaves the state unchanged. -/
theorem registerTopic_gnss_err (s : StationRow) (st : RegState)
    (hc : noGnssCached st.cache) (hq : gnssQualifies s) :
    registerTopic s .gnss s.mqtt_gnss st = (st, some PyErr.typeError) := by
  obtain ⟨_, t, ht, hnb⟩ := hq
  rw [ht]
  simp only [registerTopic, if_neg hnb, hc s.sid]
  rfl

/-- A non-GNSS registration never raises and does not change any GNSS cache
entry. -/
theorem registerTopic_nonGnss (s : StationRow) (stype : SensorType)
    (hne : stype ≠ SensorType.gnss) (topic? : Option String) (st : RegState) :
    (registerTopic s stype topic? st).2 = none ∧
    ∀ i : ℕ, (registerTopic s stype topic? st).1.cache.lookup (i, SensorType.gnss) =
      st.cache.lookup (i, SensorType.gnss) := by
  cases topic? with
  | none => exact ⟨rfl, fun i => rfl⟩
  | some t =>
    by_cases hb : pyStrip t = ""
    · simp [registerTopic, hb]
    · simp only [registerTopic, if_neg hb]
      cases hl : st.cache.lookup (s.sid, stype) with
      | some p => exact ⟨rfl, fun i => rfl⟩
      | none =>
        have hok : ∃ proc, instantiateProcessor stype = .ok proc := by
          cases stype with
          | gnss => exact absurd rfl hne
          | rain => exact ⟨_, rfl⟩
          | water => exact ⟨_, rfl⟩
          | imu => exact ⟨_, rfl⟩
        obtain ⟨proc, hproc⟩ := hok
        rw [hproc]
        refine ⟨rfl, fun i => ?_⟩
        have hbeq : (((i, SensorType.gnss) : ℕ × SensorType) == (s.sid, stype)) = false := by
          apply beq_eq_false_iff_ne.mpr
          intro h
          exact hne (congrArg Prod.snd h).symm
        simp [List.lookup, hbeq]

/-- One conditional registration step for a non-GNSS sensor: raise-free and
GNSS-cache-preserving. -/
theorem stepPreserves (s : StationRow) (stype : SensorType)
    (hne : stype ≠ SensorType.gnss) (b : Bool) (topic? : Option String) (st : RegState) :
    ((if b then registerTopic s stype topic? st else (st, none)).2 = none) ∧
    ∀ i : ℕ, (if b then registerTopic s stype topic? st else (st, none)).1.cache.lookup
        (i, SensorType.gnss) = st.cache.lookup (i, SensorType.gnss) := by
  cases b with
  | false => exact ⟨rfl, fun i => rfl⟩
  | true => simpa using registerTopic_nonGnss s stype hne topic? st

/-- A qualifying station stops `registerStation` with a `TypeError` at its
GNSS registration, before any further mutation. -/
theorem registerStation_qual (s : StationRow) (st : RegState)
    (hc : noGnssCached st.cache) (hq : gnssQualifies s) :
    registerStation s st = (st, some PyErr.typeError) := by
  unfold registerStation
  rw [if_pos hq.1, registerTopic_gnss_err s st hc hq]
  exact stepThen_err rfl

/-- A non-qualifying station registers without raising and preserves the
absence of GNSS cache entries. -/
theorem registerStation_nonqual (s : StationRow) (st : RegState)
    (hc : noGnssCached st.cache) (hnq : ¬gnssQualifies s) :
    (registerStation s st).2 = none ∧ noGnssCached (registerStation s st).1.cache := by
  have hg : (if s.has_gnss then registerTopic s .gnss s.mqtt_gnss st else (st, none)) =
      (st, none) := by
    cases hgg : s.has_gnss with
    | false => simp
    | true =>
      simp only [if_pos hgg]
      cases hm : s.mqtt_gnss with
      | none => rfl
      | some t =>
        have hb : pyStrip t = "" := by
          by_contra hb
          exact hnq ⟨hgg, t, hm, hb⟩
        simp [registerTopic, hb]
  unfold registerStation
  rw [hg, stepThen_none rfl]
  obtain ⟨h2e, h2c⟩ := stepPreserves s .rain (by decide) s.has_rain s.mqtt_rain st
  rw [stepThen_none h2e]
  obtain ⟨h3e, h3c⟩ := stepPreserves s .water (by decide) s.has_water s.mqtt_water _
  rw [stepThen_none h3e]
  obtain ⟨h4e, h4c⟩ := stepPreserves s .imu (by decide) s.has_imu s.mqtt_imu _
  refine ⟨h4e, fun i => ?_⟩
  rw [h4c i, h3c i, h2c i]
  exact hc i

/-- Any station list containing a qualifying GNSS station makes the
reconciliation fold raise, provided no GNSS processor is cached. -/
theorem runStations_err (stations : List StationRow) (st : RegState)
    (hc : noGnssCached st.cache) (hex : ∃ s ∈ stations, gnssQualifies s) :
    (runStations stations st).2 = some PyErr.typeError := by
  induction stations generalizing st with
  | nil =>
    obtain ⟨s, hs, _⟩ := hex
    cases hs
  | cons s rest ih =>
    by_cases hq : gnssQualifies s
    · simp only [runStations, registerStation_qual s st hc hq]
    · obtain ⟨he, hcc⟩ := registerStation_nonqual s st hc hq
      simp only [runStations]
      rcases hres : registerStation s st with ⟨st1, e1⟩
      rw [hres] at he hcc
      cases e1 with
      | some e => cases he
      | none =>
        simp only []
        apply ih st1 hcc
        obtain ⟨s', hs', hq'⟩ := hex
        rcases List.mem_cons.mp hs' with rfl | hmem
        · exact absurd hq' hq
        · exact ⟨s', hmem, hq'⟩

/-- **C3.** In the topic-reload loop, instantiating a processor for a GNSS
sensor calls `GNSSVelocityProcessor()` with zero arguments although
`device_id` and `db_session_factory` are required positional parameters, so
any station list containing a registrable GNSS sensor (with no GNSS
processor yet cached — invariantly true, since this constructor call can
never succeed) makes the reconciliation cycle raise `TypeError` and abort
without installing the new binding map. -/
theorem C3_gnss_reload_aborts (stations : List StationRow)
    (cache : List ((ℕ × SensorType) × ProcState))
    (tmap : List (String × TopicInfo))
    (hcache : noGnssCached cache)
    (hex : ∃ s ∈ stations, gnssQualifies s) :
    (reloadTopicsOnce cache tmap stations).errored = true ∧
    (reloadTopicsOnce cache tmap stations).topic_map = tmap := by
  have h := runStations_err stations ⟨cache, []⟩ hcache hex
  unfold reloadTopicsOnce
  rcases hres : runStations stations ⟨cache, []⟩ with ⟨stf, ef⟩
  rw [hres] at h
  cases ef with
  | none => cases h
  | some e => exact ⟨rfl, rfl⟩

/-- Station used by the C3 witness. -/
def stationEx : StationRow :=
  ⟨1, "Station-1", true, false, false, false, some "devices/st1/gnss",
    none, none, none, Cfg.empty⟩

/-- Witness for C3: a single GNSS station against the empty cache and empty
topic map — the cycle errors and installs nothing. -/
theorem C3_gnss_reload_aborts_witness :
    (reloadTopicsOnce [] [] [stationEx]).errored = true ∧
    (reloadTopicsOnce [] [] [stationEx]).topic_map = [] :=
  C3_gnss_reload_aborts [stationEx] [] [] (fun _ => rfl)
    ⟨stationEx, List.mem_singleton.mpr rfl, rfl, "devices/st1/gnss", rfl, by decide⟩

/-! ## Claim C2: broadcast before persistence -/

/-- Every effect of the persistence tail is a database write. -/
theorem pipelineTail_all_db (ops : FloatOps) (st1 : BridgeState) (sid : ℕ)
    (stype : SensorType) (cfg : Cfg) (ts : ℤ) (processed : Option ProcessedData) :
    ((pipelineTail ops st1 sid stype cfg ts processed).2).all Effect.isDbWrite = true := by
  unfold pipelineTail
  cases processed with
  | none => rfl
  | some pd =>
    rw [List.all_eq_true]
    intro x hx
    simp only [List.mem_append, List.mem_cons, List.not_mem_nil, or_false] at hx
    rcases hx with (h | h) | h
    · subst h; rfl
    · split at h <;> simp_all [Effect.isDbWrite]
    · split at h <;> simp_all [Effect.isDbWrite]

/-- **C2 (amended).** The bridge pipeline emits nothing to any broadcast hub:
for every bridge state, topic, raw frame and wall time, every effect of
`process_pipeline` is a database write — the `sensor_data` broadcast the
claim places before persistence does not occur at all. -/
theorem C2_no_broadcast (jsonDecode : String → Option Payload) (ops : FloatOps)
    (st : BridgeState) (topic raw_payload : String) (now : ℚ) :
    ((process_pipeline jsonDecode ops st topic raw_payload now).2).all
      Effect.isDbWrite = true := by
  unfold process_pipeline
  split
  · rfl
  · split
    · dsimp only
      apply pipelineTail_all_db
    · split
      · rfl
      · dsimp only
        apply pipelineTail_all_db
    · split
      · rfl
      · dsimp only
        apply pipelineTail_all_db
    · split
      · rfl
      · dsimp only
        apply pipelineTail_all_db
    · rfl

/-- Bridge state for the C2 counterexample: one water topic bound to
station 1, with its processor cached and nothing saved yet. -/
def bridgeEx : BridgeState :=
  ⟨[("w", ⟨1, "Station-1", SensorType.water, Cfg.empty⟩)],
    [((1, SensorType.water), ProcState.waterP WaterEngine.init)], []⟩

/-- `json.loads` result for the C2 counterexample: `{"value": 5}`. -/
def decodeEx : String → Option Payload := fun _ => some { value := some (PyVal.num 5) }

/-- **C2, counterexample.**  A processed water frame produces database writes
(the station-online update and a sensor-data insert, in that order) and no
`sensor_data` broadcast at all — contradicting the claim that a
`sensor_data` event reaches the broadcast hub before any database write. -/
theorem C2_counterexample :
    (process_pipeline decodeEx testOps bridgeEx "w" "x" 1000000).2 =
      [Effect.dbStationOnline 1 1000000,
        Effect.dbInsertSensorData 1 1000000 SensorType.water] ∧
    ∀ msg, Effect.wsBroadcast msg ∉
      (process_pipeline decodeEx testOps bridgeEx "w" "x" 1000000).2 := by
  have h : (process_pipeline decodeEx testOps bridgeEx "w" "x" 1000000).2 =
      [Effect.dbStationOnline 1 1000000,
        Effect.dbInsertSensorData 1 1000000 SensorType.water] := by
    norm_num +decide [process_pipeline, bridgeEx, decodeEx, pipelineTail,
      WaterEngine.process, WaterEngine.init, WaterEngine.fallbackRec, pyOr,
      analyze_water_level, getCfg, Cfg.empty,
      saveInterval, SAVE_INTERVAL_WATER, PyVal.num, roundTo, ratTrunc,
      updateProcCache, setAssoc, pushBounded]
  refine ⟨h, fun msg => ?_⟩
  rw [h]
  simp

/-! ## Claim C6: origin locking decision -/

/-- Centroid latitude of a candidate set (component-wise mean). -/
def candCentroidLat (cands : List WgsPoint) : ℚ := listMeanQ (cands.map WgsPoint.lat)

/-- Centroid longitude of a candidate set. -/
def candCentroidLon (cands : List WgsPoint) : ℚ := listMeanQ (cands.map WgsPoint.lon)

/-- Centroid height of a candidate set. -/
def candCentroidH (cands : List WgsPoint) : ℚ := listMeanQ (cands.map WgsPoint.h)

/-- Candidate dispersion: the maximum 3-D haversine distance from the
centroid to any candidate. -/
def candDispersion (ops : FloatOps) (cands : List WgsPoint) : ℚ :=
  listMaxD 0 (cands.map fun q =>
    haversine_3d ops (candCentroidLat cands) (candCentroidLon cands)
      (candCentroidH cands) q.lat q.lon q.h)

/-- **C6.** In AWAITING_CANDIDATES, when an accepted fix brings the held
candidate count to the required number, the processor computes the
component-wise centroid and the maximum centroid-to-candidate 3-D distance;
if that dispersion is at most `max_spread_m` it locks, storing the centroid
with its ECEF coordinates and ECEF-to-ENU rotation matrix and emitting
`origin_locked` carrying the centroid; otherwise it clears all candidates,
increments `origin_resets`, emits `origin_reset`, and remains in
AWAITING_CANDIDATES. -/
theorem C6_origin_lock (ops : FloatOps) (p : GnssProc) (raw : String) (fq : ℤ)
    (pt : ParsedPoint)
    (hstate : p.state = GnssState.AWAITING_CANDIDATES)
    (hq : ¬ fq < p.min_fix_quality)
    (hparse : parse_gngga raw = some pt)
    (hfull : p.required_points ≤ (p.origin_candidates ++ [pt.wgs]).length) :
    (candDispersion ops (p.origin_candidates ++ [pt.wgs]) ≤ p.max_spread_m →
      handleOriginCollection ops p raw fq =
        ({ p with
            origin_candidates := p.origin_candidates ++ [pt.wgs]
            origin := some
              ⟨candCentroidLat (p.origin_candidates ++ [pt.wgs]),
                candCentroidLon (p.origin_candidates ++ [pt.wgs]),
                candCentroidH (p.origin_candidates ++ [pt.wgs]),
                rotationMatrix ops (candCentroidLat (p.origin_candidates ++ [pt.wgs]))
                  (candCentroidLon (p.origin_candidates ++ [pt.wgs])),
                gnggaToEcef ops (candCentroidLat (p.origin_candidates ++ [pt.wgs]))
                  (candCentroidLon (p.origin_candidates ++ [pt.wgs]))
                  (candCentroidH (p.origin_candidates ++ [pt.wgs]))⟩
            state := GnssState.ORIGIN_LOCKED },
          some (GnssOut.origin_locked
            (candCentroidLat (p.origin_candidates ++ [pt.wgs]))
            (candCentroidLon (p.origin_candidates ++ [pt.wgs]))
            (candCentroidH (p.origin_candidates ++ [pt.wgs]))))) ∧
    (p.max_spread_m < candDispersion ops (p.origin_candidates ++ [pt.wgs]) →
      handleOriginCollection ops p raw fq =
        ({ p with origin_candidates := [], origin_resets := p.origin_resets + 1 },
          some GnssOut.origin_reset) ∧
      (handleOriginCollection ops p raw fq).1.state = GnssState.AWAITING_CANDIDATES) := by
  have hbody : handleOriginCollection ops p raw fq =
      (if candDispersion ops (p.origin_candidates ++ [pt.wgs]) ≤ p.max_spread_m then
        ({ p with
            origin_candidates := p.origin_candidates ++ [pt.wgs]
            origin := some
              ⟨candCentroidLat (p.origin_candidates ++ [pt.wgs]),
                candCentroidLon (p.origin_candidates ++ [pt.wgs]),
                candCentroidH (p.origin_candidates ++ [pt.wgs]),
                rotationMatrix ops (candCentroidLat (p.origin_candidates ++ [pt.wgs]))
                  (candCentroidLon (p.origin_candidates ++ [pt.wgs])),
                gnggaToEcef ops (candCentroidLat (p.origin_candidates ++ [pt.wgs]))
                  (candCentroidLon (p.origin_candidates ++ [pt.wgs]))
                  (candCentroidH (p.origin_candidates ++ [pt.wgs]))⟩
            state := GnssState.ORIGIN_LOCKED },
          some (GnssOut.origin_locked
            (candCentroidLat (p.origin_candidates ++ [pt.wgs]))
            (candCentroidLon (p.origin_candidates ++ [pt.wgs]))
            (candCentroidH (p.origin_candidates ++ [pt.wgs]))))
      else
        ({ p with origin_candidates := [], origin_resets := p.origin_resets + 1 },
          some GnssOut.origin_reset)) := by
    unfold handleOriginCollection
    rw [if_neg hq, hparse]
    simp only [if_pos hfull, candDispersion, candCentroidLat, candCentroidLon,
      candCentroidH]
  constructor
  · intro hdisp
    rw [hbody, if_pos hdisp]
  · intro hdisp
    rw [hbody, if_neg (not_le.mpr hdisp)]
    exact ⟨rfl, hstate ▸ rfl⟩

/-- Processor used by the C6 witness: device 7 with `required_points = 1`. -/
def gnssProcEx : GnssProc := { GnssProc.init 7 with required_points := 1 }

/-- GNGGA frame used by the C6 witness (RTK-fixed, 21.028°N 105.854°E,
height 12.3 m). -/
def rawEx : String := "$GNGGA,0,2101.68,N,10551.24,E,4,08,0.9,12.3"

/-- Parsed form of `rawEx`. -/
def ptEx : ParsedPoint :=
  ⟨⟨21 + (1 + 68 / 100) / 60, 105 + (51 + 24 / 100) / 60, 123 / 10⟩, 4, 8, 9 / 10⟩

/-- Code point facts for the decimal digits, used to evaluate the parser at
concrete frames. -/
theorem digitToNat :
    '0'.toNat = 48 ∧ '1'.toNat = 49 ∧ '2'.toNat = 50 ∧ '3'.toNat = 51 ∧
    '4'.toNat = 52 ∧ '5'.toNat = 53 ∧ '6'.toNat = 54 ∧ '7'.toNat = 55 ∧
    '8'.toNat = 56 ∧ '9'.toNat = 57 :=
  ⟨rfl, rfl, rfl, rfl, rfl, rfl, rfl, rfl, rfl, rfl⟩

/-- `rawEx` parses to `ptEx`. -/
theorem parse_rawEx : parse_gngga rawEx = some ptEx := by
  norm_num +decide [parse_gngga, rawEx, ptEx, pySplit, splitCharsOn, pyFloat?,
    pyFloatCore, decDigits?, pyInt?, pyStrip, strTake, strDrop,
    digitToNat.1, digitToNat.2.1, digitToNat.2.2.1, digitToNat.2.2.2.1,
    digitToNat.2.2.2.2.1, digitToNat.2.2.2.2.2.1, digitToNat.2.2.2.2.2.2.1,
    digitToNat.2.2.2.2.2.2.2.1, digitToNat.2.2.2.2.2.2.2.2.1,
    digitToNat.2.2.2.2.2.2.2.2.2]

/-- Witness for C6: a single RTK-fixed frame on a processor requiring one
candidate locks at that fix (zero dispersion under `testOps`) and emits
`origin_locked` carrying the centroid. -/
theorem C6_origin_lock_witness :
    (handleOriginCollection testOps gnssProcEx rawEx 4).1.state =
      GnssState.ORIGIN_LOCKED ∧
    (handleOriginCollection testOps gnssProcEx rawEx 4).2 =
      some (GnssOut.origin_locked (candCentroidLat [ptEx.wgs])
        (candCentroidLon [ptEx.wgs]) (candCentroidH [ptEx.wgs])) := by
  have h := (C6_origin_lock testOps gnssProcEx rawEx 4 ptEx rfl
    (by norm_num [gnssProcEx, GnssProc.init]) parse_rawEx
    (by norm_num [gnssProcEx, GnssProc.init])).1
    (by
      norm_num [candDispersion, candCentroidLat, candCentroidLon, candCentroidH,
        gnssProcEx, GnssProc.init, listMaxD, listMeanQ, haversine_3d, testOps, ptEx])
  have h1 : gnssProcEx.origin_candidates ++ [ptEx.wgs] = [ptEx.wgs] := rfl
  rw [h1] at h
  rw [h]
  exact ⟨rfl, rfl⟩

/-! ## Claim C7: no gnss_processed while awaiting candidates -/

/-- The origin-collection handler only produces origin progress records,
never `gnss_processed`. -/
theorem handleOriginCollection_not_processed (ops : FloatOps) (p : GnssProc)
    (raw : String) (fq : ℤ) (ts : ℤ) (d : GnssData) :
    (handleOriginCollection ops p raw fq).2 ≠ some (GnssOut.gnss_processed ts d) := by
  simp only [handleOriginCollection]
  split
  · simp
  · split
    · simp
    · split
      · split
        · simp
        · simp
      · simp

/-- Step lemma: in AWAITING_CANDIDATES, `process_gngga` never outputs a
`gnss_processed` record. -/
theorem process_gngga_awaiting (ops : FloatOps) (p : GnssProc) (raw : String)
    (now : ℚ) (h : p.state = GnssState.AWAITING_CANDIDATES) (ts : ℤ) (d : GnssData) :
    (GnssProc.process_gngga ops p raw now).2 ≠ some (GnssOut.gnss_processed ts d) := by
  simp only [GnssProc.process_gngga, h]
  split
  · simp
  · split
    · simp
    · exact handleOriginCollection_not_processed ops p raw _ ts d

/-- Trace check: no step that starts in AWAITING_CANDIDATES outputs a
`gnss_processed` record. -/
def noProcessedWhileAwaiting (tr : List (GnssState × Option GnssOut)) : Bool :=
  tr.all fun step =>
    match step with
    | (GnssState.AWAITING_CANDIDATES, some (GnssOut.gnss_processed _ _)) => false
    | _ => true

/-- **C7.** For every input stream of frames (and every starting processor
state), the GNSS processor never emits `gnss_processed` at a step whose
pre-state is AWAITING_CANDIDATES: in that state only `origin_status`,
`origin_collecting`, `origin_locked`, `origin_reset` or no record can be
produced. -/
theorem C7_no_processed_in_awaiting (ops : FloatOps) (p : GnssProc)
    (inputs : List (String × ℚ)) :
    noProcessedWhileAwaiting (gnssRunTrace ops p inputs) = true := by
  induction inputs generalizing p with
  | nil => rfl
  | cons hd tl ih =>
    obtain ⟨raw, t⟩ := hd
    have hrest := ih ((GnssProc.process_gngga ops p raw t).1)
    unfold noProcessedWhileAwaiting at hrest ⊢
    rw [gnssRunTrace, List.all_cons, hrest, Bool.and_true]
    cases hs : p.state with
    | ORIGIN_LOCKED =>
      cases ho : (GnssProc.process_gngga ops p raw t).2 with
      | none => rfl
      | some o => cases o <;> rfl
    | AWAITING_CANDIDATES =>
      cases ho : (GnssProc.process_gngga ops p raw t).2 with
      | none => rfl
      | some o =>
        cases o with
        | origin_status s => rfl
        | origin_collecting c tgt => rfl
        | origin_locked la lo hh => rfl
        | origin_reset => rfl
        | gnss_processed ts d =>
          exact absurd ho (process_gngga_awaiting ops p raw t hs ts d)

end Landslide
